import Mathlib

/-!
Verification development for the Kithare compiler front end.

The development shallowly embeds the two source files under scrutiny:

* `src/src/lexer.c` — the Unicode lexer (`kh_lex` and its helpers).  The
  C code walks a NUL-terminated `char32_t` buffer through a mutable
  `char32_t** cursor`.  The embedding represents the cursor as the list
  of code points that remain ahead of it (`List Nat`); reading `**cursor`
  is `khPeek`, which yields `0` (the NUL terminator) past the end, and a
  saved `char32_t* origin` is a saved list, so pointer rewinds reuse the
  saved list and pointer comparisons compare lengths.  The growable
  error array (`khArray_khLexError`) is threaded as a `List String` of
  messages; the source also stores the cursor position of each error,
  which no claim consults, so only the message is kept.  The helpers
  `kh_lexString` and `kh_lex` contain loops that do not always advance
  the cursor, so they take a fuel argument and return `none` when every
  finite budget is exhausted; all the other helpers terminate
  structurally on the remaining input.

* `src/src/parser.c` — the recursive-descent parser.  It consumes tokens
  produced by `kh_lexToken` (declared in `kithare/core/lexer.h`, which is
  not part of the sources), so the token stream is modelled from the
  specification as a list of tokens indexed by a cursor position, and
  `kh_lexToken` returns the token under the cursor and advances, or `EOF`
  at the end.  The global parser error hook `kh_raiseError` is modelled
  by threading a message list through every function.  The parser
  functions are mutually recursive through loops that do not always
  consume a token, so every function takes a fuel argument that each
  nested call decreases; fuel exhaustion returns the neutral value of
  the function (an `INVALID` node, an empty list, or the unchanged
  state), which no theorem below relies on.

AST and token `begin`/`end` buffer positions only serve diagnostics
rendering and are not modelled.  Floating-point values are idealised as
exact rationals with an explicit infinity marker (`CDouble`); no claim
depends on rounding.
-/

/-! ## Code points and character classes (lexer.c) -/

/-- Code-point list of a string literal, for writing buffers compactly. -/
def U (s : String) : List Nat := s.toList.map Char.toNat

/-- Reading `**cursor` on a NUL-terminated buffer: the next code point,
or `0` when the cursor stands on the terminator. -/
def khPeek (cur : List Nat) : Nat := cur.headD 0

/-- Translation of `digitOf` (lexer.c:24): digit value 0 to 35 of a code
point, or `0xFF` for an unrecognized character. -/
def digitOf (chr : Nat) : Nat :=
  if 48 ≤ chr ∧ chr ≤ 57 then chr - 48
  else if 65 ≤ chr ∧ chr ≤ 90 then chr - 65 + 10
  else if 97 ≤ chr ∧ chr ≤ 122 then chr - 97 + 10
  else 0xFF

/-- Model of the C `iswspace` on the default locale: the six standard
white-space characters (space, and codes 9 to 13, which include the
line feed 10).  Every claim below only exercises this ASCII range,
where all locales agree. -/
def iswspace (c : Nat) : Bool := c = 32 ∨ (9 ≤ c ∧ c ≤ 13)

/-- Model of the C `iswalpha` on the default locale, restricted to the
ASCII letters; every input below stays in this range. -/
def iswalpha (c : Nat) : Bool := (65 ≤ c ∧ c ≤ 90) ∨ (97 ≤ c ∧ c ≤ 122)

/-- Model of the C `iswalnum`: alphabetic or decimal digit. -/
def iswalnum (c : Nat) : Bool := iswalpha c ∨ (48 ≤ c ∧ c ≤ 57)

/-! ## Token model of lexer.c

The token type and its `khToken_from*` constructors live in
`kithare/lexer.h` / `kithare/token.h`, which are not among the sources;
the variants and payloads are modelled from the constructor calls in
lexer.c together with the specification (§3, Token).  Integer payloads
carry the `uint64_t` accumulator value that lexer.c passes to the
constructor. -/

/-- Idealised C `double`: an exact rational, or the IEEE infinity that
`kh_lexFloat` saturates to on exponent overflow. -/
inductive CDouble where
  | val (q : ℚ)
  | inf
deriving DecidableEq

/-- Operator codes of the old-generation lexer (`khOperatorToken`),
as used by lexer.c. -/
inductive khOperatorToken where
  | ADD | SUB | MUL | DIV | MODULO | POWER
  | IADD | ISUB | IMUL | IDIV | IMODULO | IPOWER
  | INCREMENT | DECREMENT
  | ASSIGN | EQUALS | NOT_EQUAL
  | LESS | MORE | ELESS | EMORE
  | BIT_AND | BIT_OR | BIT_XOR
  | BIT_LSHIFT | BIT_RSHIFT
  | IBIT_AND | IBIT_OR | IBIT_XOR | IBIT_LSHIFT | IBIT_RSHIFT
  | NOT | AND | OR | XOR
  | ID
deriving DecidableEq

/-- Keyword codes of the old-generation lexer (`khKeywordToken`).  The
spec keyword set (§3) also lists `wild`, `incase` and `in`, and the
parser dispatches on their codes, so the enum carries them even though
`kh_lexWord` never produces them. -/
inductive khKeywordToken where
  | IMPORT | INCLUDE | AS | TRY | DEF | CLASS | STRUCT | ENUM | ALIAS
  | REF | WILD | PUBLIC | PRIVATE | STATIC | INCASE
  | IF | ELIF | ELSE | FOR | WHILE | DO | BREAK | CONTINUE | RETURN | IN
deriving DecidableEq

/-- Delimiter codes of the old-generation lexer (`khDelimiterToken`).
The spec delimiter list (§6) has distinct square brackets, hence the
`SQUARE_BRACKET_CLOSE` code exists; lexer.c never emits it. -/
inductive khDelimiterToken where
  | COMMA | COLON | SEMICOLON
  | PARENTHESES_OPEN | PARENTHESES_CLOSE
  | CURLY_BRACKET_OPEN | CURLY_BRACKET_CLOSE
  | SQUARE_BRACKET_OPEN | SQUARE_BRACKET_CLOSE
  | ELLIPSIS | DOT | ARROW | EXCLAMATION
deriving DecidableEq

/-- Token union of the old-generation lexer. -/
inductive khToken where
  | IDENTIFIER (identifier : List Nat)
  | KEYWORD (keyword : khKeywordToken)
  | OPERATOR (operator_v : khOperatorToken)
  | DELIMITER (delimiter : khDelimiterToken)
  | CHAR (char_v : Nat)
  | STRING (string : List Nat)
  | BUFFER (buffer : List Nat)
  | BYTE (v : Nat) | SBYTE (v : Nat)
  | SHORT (v : Nat) | USHORT (v : Nat)
  | INT (v : Nat) | UINT (v : Nat)
  | LONG (v : Nat) | ULONG (v : Nat)
  | FLOAT (v : CDouble) | DOUBLE (v : CDouble)
  | IFLOAT (v : CDouble) | IDOUBLE (v : CDouble)
  | COMMENT
  | NONE
deriving DecidableEq

def khToken_fromIdentifier (s : List Nat) : khToken := .IDENTIFIER s
def khToken_fromKeyword (k : khKeywordToken) : khToken := .KEYWORD k
def khToken_fromOperator (o : khOperatorToken) : khToken := .OPERATOR o
def khToken_fromDelimiter (d : khDelimiterToken) : khToken := .DELIMITER d
def khToken_fromChar (c : Nat) : khToken := .CHAR c
def khToken_fromString (s : List Nat) : khToken := .STRING s
def khToken_fromBuffer (b : List Nat) : khToken := .BUFFER b
def khToken_fromByte (v : Nat) : khToken := .BYTE v
def khToken_fromSbyte (v : Nat) : khToken := .SBYTE v
def khToken_fromShort (v : Nat) : khToken := .SHORT v
def khToken_fromUshort (v : Nat) : khToken := .USHORT v
def khToken_fromInt (v : Nat) : khToken := .INT v
def khToken_fromUint (v : Nat) : khToken := .UINT v
def khToken_fromLong (v : Nat) : khToken := .LONG v
def khToken_fromUlong (v : Nat) : khToken := .ULONG v
def khToken_fromFloat (v : CDouble) : khToken := .FLOAT v
def khToken_fromDouble (v : CDouble) : khToken := .DOUBLE v
def khToken_fromIfloat (v : CDouble) : khToken := .IFLOAT v
def khToken_fromIdouble (v : CDouble) : khToken := .IDOUBLE v
def khToken_fromComment : khToken := .COMMENT
def khToken_fromNone : khToken := .NONE

/-- Value of the C `(size_t)-1` that kh_lexNumber passes as the
unbounded `max_length`. -/
def USIZE_MAX : Nat := 2 ^ 64 - 1

/-! ## kh_lexInt (lexer.c:788) -/

/-- Loop of `kh_lexInt`: consume digits below `base` while `max_length`
lasts, accumulating `result ← result * base + digit` in a wrapping
64-bit accumulator, and set the overflow flag whenever the new value is
below the value before the multiplication. -/
def kh_lexIntLoop (base : Nat) : List Nat → Nat → Nat → Bool → Nat × Bool × List Nat
  | [], _, result, ov => (result, ov, [])
  | c :: rest, maxLen, result, ov =>
    if digitOf c < base ∧ 0 < maxLen then
      let previous := result
      let result := (result * base + digitOf c) % 2 ^ 64
      let ov := if result < previous then true else ov
      kh_lexIntLoop base rest (maxLen - 1) result ov
    else
      (result, ov, c :: rest)

/-- Translation of `kh_lexInt`: returns the accumulated value, the
overflow flag, and the cursor after the digits. -/
def kh_lexInt (base maxLen : Nat) (cur : List Nat) : Nat × Bool × List Nat :=
  kh_lexIntLoop base cur maxLen 0 false

/-! ## kh_lexFloat (lexer.c:812) -/

/-- Integer-part loop of `kh_lexFloat`, in exact arithmetic. -/
def kh_lexFloatIntLoop (base : Nat) : List Nat → ℚ → ℚ × List Nat
  | [], result => (result, [])
  | c :: rest, result =>
    if digitOf c < base then
      kh_lexFloatIntLoop base rest (result * (base : ℚ) + (digitOf c : ℚ))
    else
      (result, c :: rest)

/-- Fraction loop of `kh_lexFloat`: each digit contributes
`digit * exponent` and the exponent shifts right by the base. -/
def kh_lexFloatFracLoop (base : Nat) : List Nat → ℚ → ℚ → ℚ × List Nat
  | [], result, _ => (result, [])
  | c :: rest, result, exponent =>
    if digitOf c < base then
      kh_lexFloatFracLoop base rest (result + (digitOf c : ℚ) * exponent) (exponent / (base : ℚ))
    else
      (result, c :: rest)

/-- Exponent suffix of `kh_lexFloat` for one exponent base (10 for `e`,
2 for `p`): optional sign, then base-10 digits; overflow of the 64-bit
digit accumulator saturates to 0 (negative) or infinity (positive). -/
def kh_lexFloatExponent (expBase : Nat) (result : ℚ) (cur : List Nat) : CDouble × List Nat :=
  if khPeek cur = 45 then
    -- 45 is the minus sign
    let (n, had_overflowed, cur) := kh_lexInt 10 USIZE_MAX cur.tail
    if had_overflowed then (.val 0, cur)
    else (.val (result * ((expBase : ℚ) ^ n)⁻¹), cur)
  else
    let cur := if khPeek cur = 43 then cur.tail else cur
    -- 43 is the plus sign
    let (n, had_overflowed, cur) := kh_lexInt 10 USIZE_MAX cur
    if had_overflowed then (.inf, cur)
    else (.val (result * (expBase : ℚ) ^ n), cur)

/-- Translation of `kh_lexFloat`: mantissa in the given base with an
optional fractional part, then an optional `e`/`E` or `p`/`P` exponent. -/
def kh_lexFloat (base : Nat) (cur : List Nat) : CDouble × List Nat :=
  let (result, cur) := kh_lexFloatIntLoop base cur 0
  let (result, cur) :=
    if khPeek cur = 46 then
      -- 46 is the dot
      kh_lexFloatFracLoop base cur.tail result (1 / (base : ℚ))
    else
      (result, cur)
  if khPeek cur = 101 ∨ khPeek cur = 69 then
    -- 101, 69 are the letters e, E
    kh_lexFloatExponent 10 result cur.tail
  else if khPeek cur = 112 ∨ khPeek cur = 80 then
    -- 112, 80 are the letters p, P
    kh_lexFloatExponent 2 result cur.tail
  else
    (.val result, cur)

/-! ## kh_lexWord (lexer.c:104) -/

/-- Word loop of `kh_lexWord`: the maximal run of alphanumeric code
points and the cursor after it. -/
def kh_lexWordLoop : List Nat → List Nat × List Nat
  | [] => ([], [])
  | c :: rest =>
    if iswalnum c then
      let (word, cur) := kh_lexWordLoop rest
      (c :: word, cur)
    else
      ([], c :: rest)

/-- Translation of `kh_lexWord`: consume a word, then compare it against
the word-operator and keyword tables of lexer.c, in source order;
everything else is an identifier.  The C `errors` parameter is threaded
although the function never appends to it. -/
def kh_lexWord (cur : List Nat) (errors : List String) : khToken × List Nat × List String :=
  let (identifier, cur) := kh_lexWordLoop cur
  let token :=
    if identifier = U ("not") then khToken_fromOperator .NOT
    else if identifier = U ("and") then khToken_fromOperator .AND
    else if identifier = U ("or") then khToken_fromOperator .OR
    else if identifier = U ("xor") then khToken_fromOperator .XOR
    else if identifier = U ("import") then khToken_fromKeyword .IMPORT
    else if identifier = U ("include") then khToken_fromKeyword .INCLUDE
    else if identifier = U ("as") then khToken_fromKeyword .AS
    else if identifier = U ("try") then khToken_fromKeyword .TRY
    else if identifier = U ("def") then khToken_fromKeyword .DEF
    else if identifier = U ("class") then khToken_fromKeyword .CLASS
    else if identifier = U ("struct") then khToken_fromKeyword .STRUCT
    else if identifier = U ("enum") then khToken_fromKeyword .ENUM
    else if identifier = U ("alias") then khToken_fromKeyword .ALIAS
    else if identifier = U ("ref") then khToken_fromKeyword .REF
    else if identifier = U ("public") then khToken_fromKeyword .PUBLIC
    else if identifier = U ("private") then khToken_fromKeyword .PRIVATE
    else if identifier = U ("static") then khToken_fromKeyword .STATIC
    else if identifier = U ("if") then khToken_fromKeyword .IF
    else if identifier = U ("elif") then khToken_fromKeyword .ELIF
    else if identifier = U ("else") then khToken_fromKeyword .ELSE
    else if identifier = U ("for") then khToken_fromKeyword .FOR
    else if identifier = U ("while") then khToken_fromKeyword .WHILE
    else if identifier = U ("do") then khToken_fromKeyword .DO
    else if identifier = U ("break") then khToken_fromKeyword .BREAK
    else if identifier = U ("continue") then khToken_fromKeyword .CONTINUE
    else if identifier = U ("return") then khToken_fromKeyword .RETURN
    else khToken_fromIdentifier identifier
  (token, cur, errors)

/-! ## kh_lexSymbol (lexer.c:366) -/

/-- Translation of `kh_lexSymbol`: consume one code point and dispatch;
multi-character operators use one further look-ahead.  lexer.c:382 maps
the closing square bracket (93) to `CURLY_BRACKET_CLOSE`, the same code
as the closing curly bracket (125). -/
def kh_lexSymbol (cur : List Nat) (errors : List String) : khToken × List Nat × List String :=
  match cur with
  | [] =>
    -- case of the NUL terminator: the cursor backs up onto it
    (khToken_fromNone, [], errors ++ ["expecting a token, met with a dead end"])
  | c :: rest =>
    match c with
    | 44 => (khToken_fromDelimiter .COMMA, rest, errors)
    | 58 => (khToken_fromDelimiter .COLON, rest, errors)
    | 59 => (khToken_fromDelimiter .SEMICOLON, rest, errors)
    | 40 => (khToken_fromDelimiter .PARENTHESES_OPEN, rest, errors)
    | 41 => (khToken_fromDelimiter .PARENTHESES_CLOSE, rest, errors)
    | 123 => (khToken_fromDelimiter .CURLY_BRACKET_OPEN, rest, errors)
    | 125 => (khToken_fromDelimiter .CURLY_BRACKET_CLOSE, rest, errors)
    | 91 => (khToken_fromDelimiter .SQUARE_BRACKET_OPEN, rest, errors)
    | 93 => (khToken_fromDelimiter .CURLY_BRACKET_CLOSE, rest, errors)
    | 46 =>
      -- the dot: an ellipsis needs two more dots
      if khPeek rest = 46 ∧ khPeek rest.tail = 46 then
        (khToken_fromDelimiter .ELLIPSIS, rest.tail.tail, errors)
      else
        (khToken_fromDelimiter .DOT, rest, errors)
    | 43 =>
      -- the plus sign
      match rest with
      | 43 :: rest2 => (khToken_fromOperator .INCREMENT, rest2, errors)
      | 61 :: rest2 => (khToken_fromOperator .IADD, rest2, errors)
      | _ => (khToken_fromOperator .ADD, rest, errors)
    | 45 =>
      -- the minus sign
      match rest with
      | 45 :: rest2 => (khToken_fromOperator .DECREMENT, rest2, errors)
      | 61 :: rest2 => (khToken_fromOperator .ISUB, rest2, errors)
      | 62 :: rest2 => (khToken_fromDelimiter .ARROW, rest2, errors)
      | _ => (khToken_fromOperator .SUB, rest, errors)
    | 42 =>
      -- the asterisk
      if khPeek rest = 61 then (khToken_fromOperator .IMUL, rest.tail, errors)
      else (khToken_fromOperator .MUL, rest, errors)
    | 47 =>
      -- the slash
      if khPeek rest = 61 then (khToken_fromOperator .IDIV, rest.tail, errors)
      else (khToken_fromOperator .DIV, rest, errors)
    | 37 =>
      -- the percent sign
      if khPeek rest = 61 then (khToken_fromOperator .IMODULO, rest.tail, errors)
      else (khToken_fromOperator .MODULO, rest, errors)
    | 94 =>
      -- the caret
      if khPeek rest = 61 then (khToken_fromOperator .IPOWER, rest.tail, errors)
      else (khToken_fromOperator .POWER, rest, errors)
    | 61 =>
      -- the equals sign
      if khPeek rest = 61 then (khToken_fromOperator .EQUALS, rest.tail, errors)
      else (khToken_fromOperator .ASSIGN, rest, errors)
    | 64 => (khToken_fromOperator .ID, rest, errors)
    | 33 =>
      -- the exclamation mark
      if khPeek rest = 61 then (khToken_fromOperator .NOT_EQUAL, rest.tail, errors)
      else (khToken_fromDelimiter .EXCLAMATION, rest, errors)
    | 60 =>
      -- the less-than sign
      match rest with
      | 61 :: rest2 => (khToken_fromOperator .ELESS, rest2, errors)
      | 60 :: rest2 =>
        if khPeek rest2 = 61 then (khToken_fromOperator .IBIT_LSHIFT, rest2.tail, errors)
        else (khToken_fromOperator .BIT_LSHIFT, rest2, errors)
      | _ => (khToken_fromOperator .LESS, rest, errors)
    | 62 =>
      -- the greater-than sign; lexer.c:504 looks for a following
      -- less-than sign for the right shift
      match rest with
      | 61 :: rest2 => (khToken_fromOperator .EMORE, rest2, errors)
      | 60 :: rest2 =>
        if khPeek rest2 = 61 then (khToken_fromOperator .IBIT_RSHIFT, rest2.tail, errors)
        else (khToken_fromOperator .BIT_RSHIFT, rest2, errors)
      | _ => (khToken_fromOperator .MORE, rest, errors)
    | 126 =>
      -- the tilde; lexer.c:525 returns BIT_OR with the remark that it
      -- is also khOperatorToken_BIT_XOR
      if khPeek rest = 61 then (khToken_fromOperator .IBIT_XOR, rest.tail, errors)
      else (khToken_fromOperator .BIT_OR, rest, errors)
    | 38 =>
      -- the ampersand
      if khPeek rest = 61 then (khToken_fromOperator .IBIT_AND, rest.tail, errors)
      else (khToken_fromOperator .BIT_AND, rest, errors)
    | 124 =>
      -- the vertical bar
      if khPeek rest = 61 then (khToken_fromOperator .IBIT_OR, rest.tail, errors)
      else (khToken_fromOperator .BIT_OR, rest, errors)
    | 0 =>
      -- a NUL code point inside the list plays the terminator
      (khToken_fromNone, 0 :: rest, errors ++ ["expecting a token, met with a dead end"])
    | _ =>
      (khToken_fromNone, c :: rest, errors ++ ["unknown character"])

/-! ## kh_lexChar (lexer.c:560) -/

/-- Backslash-escape part of `kh_lexChar` (lexer.c:573), entered with
the cursor on the backslash.  Returns the decoded code point, the
cursor, the errors, and whether the C code returned early (the dead-end
case skips the closing-quote check). -/
def kh_lexCharEscape (is_byte : Bool) (cur : List Nat) (errors : List String) :
    Nat × List Nat × List String × Bool :=
  let cur1 := cur.tail
  let c := khPeek cur1
  let cur2 := cur1.tail
  match c with
  | 48 => (0, cur2, errors, false)
  | 110 => (10, cur2, errors, false)
  | 114 => (13, cur2, errors, false)
  | 116 => (9, cur2, errors, false)
  | 118 => (11, cur2, errors, false)
  | 98 => (8, cur2, errors, false)
  | 97 => (7, cur2, errors, false)
  | 102 => (12, cur2, errors, false)
  | 92 => (92, cur2, errors, false)
  | 39 => (39, cur2, errors, false)
  | 34 => (34, cur2, errors, false)
  | 120 =>
    -- the letter x: two hexadecimal digits
    let origin := cur2
    let (chr, _, cur3) := kh_lexInt 16 2 cur2
    let errors :=
      if cur3.length + 2 = origin.length then errors
      else errors ++
        ["expecting 2 hexadecimal digits for 1 byte character, from 0 to 9 or A to F"]
    (chr, cur3, errors, false)
  | 117 =>
    -- the letter u: four hexadecimal digits
    if is_byte then
      (0, cur1, errors ++
        ["only allowing one byte characters, 2 byte unicode escapes are not allowed"], false)
    else
      let origin := cur2
      let (chr, _, cur3) := kh_lexInt 16 4 cur2
      let errors :=
        if cur3.length + 4 = origin.length then errors
        else errors ++
          ["expecting 4 hexadecimal digits for 2 byte unicode character, from 0 to 9 or A to F"]
      (chr, cur3, errors, false)
  | 85 =>
    -- the letter U: eight hexadecimal digits
    if is_byte then
      (0, cur1, errors ++
        ["only allowing one byte characters, 4 byte unicode escapes are not allowed"], false)
    else
      let origin := cur2
      let (chr, _, cur3) := kh_lexInt 16 8 cur2
      let errors :=
        if cur3.length + 8 = origin.length then errors
        else errors ++
          ["expecting 8 hexadecimal digits for 4 byte unicode character, from 0 to 9 or A to F"]
      (chr, cur3, errors, false)
  | 0 =>
    (0, cur1, errors ++ ["expecting a backslash escape character, met with a dead end"], true)
  | _ =>
    (0, cur1, errors ++ ["unknown backslash escape character"], false)

/-- Translation of `kh_lexChar`: optional opening quote, one plain or
escaped code point, optional closing quote.  In byte context a code
point above 255 is rejected and the cursor does not advance over it. -/
def kh_lexChar (with_quotes is_byte : Bool) (cur : List Nat) (errors : List String) :
    Nat × List Nat × List String :=
  let (cur, errors) :=
    if with_quotes then
      if khPeek cur = 39 then (cur.tail, errors)
      else (cur, errors ++ ["expecting a single quote opening for a character"])
    else
      (cur, errors)
  let (chr, cur, errors, returned) :=
    if khPeek cur = 92 then
      -- 92 is the backslash
      kh_lexCharEscape is_byte cur errors
    else
      match khPeek cur with
      | 39 =>
        -- a closing quote right away; encourage an escaped quote
        if with_quotes then
          (0, cur, errors ++
            ["a character cannot be closed empty, did you mean U\x27\\\x27\x27"], false)
        else
          (0, cur, errors, false)
      | 10 =>
        (0, cur, errors ++
          ["a newline instead of an inline character, did you mean U\x27\\n\x27"], false)
      | 0 =>
        (0, cur, errors ++ ["expecting a character, met with a dead end"], true)
      | c =>
        if is_byte ∧ c > 255 then
          (c, cur, errors ++
            ["only allowing one byte characters, unicode character is forbidden"], false)
        else
          (c, cur.tail, errors, false)
  if returned then
    (chr, cur, errors)
  else if with_quotes then
    if khPeek cur = 39 then (chr, cur.tail, errors)
    else (chr, cur, errors ++ ["expecting a single quote closing of the character"])
  else
    (chr, cur, errors)

/-! ## kh_lexString (lexer.c:724) -/

/-- Body loop of `kh_lexString` (lexer.c:741).  The branch for a raw
newline inside a non-multiline string appends a diagnostic and neither
advances the cursor nor leaves the loop, and the default branch calls
`kh_lexChar`, which in byte context refuses to advance over a code
point above 255; both repeat forever in the C code, so the loop carries
fuel and yields `none` when the budget runs out. -/
def kh_lexStringLoop (is_buffer multiline : Bool) :
    Nat → List Nat → List Nat → List String → Option (List Nat × List Nat × List String)
  | 0, _, _, _ => none
  | fuel + 1, string, cur, errors =>
    match khPeek cur with
    | 34 =>
      -- 34 is the double quote
      if multiline then
        if khPeek cur.tail = 34 ∧ khPeek cur.tail.tail = 34 then
          some (string, cur.tail.tail.tail, errors)
        else
          kh_lexStringLoop is_buffer multiline fuel (string ++ [34]) cur.tail errors
      else
        some (string, cur.tail, errors)
    | 10 =>
      -- 10 is the line feed, handled separately from kh_lexChar
      if multiline then
        kh_lexStringLoop is_buffer multiline fuel (string ++ [10]) cur.tail errors
      else
        kh_lexStringLoop is_buffer multiline fuel string cur (errors ++
          ["a newline instead of an inline character, use U\x27\\n\x27 or a multiline string instead"])
    | 0 =>
      some (string, cur, errors ++ ["expecting a character, met with a dead end"])
    | _ =>
      let (chr, cur, errors) := kh_lexChar false is_buffer cur errors
      kh_lexStringLoop is_buffer multiline fuel (string ++ [chr]) cur errors

/-- Translation of `kh_lexString`: an opening double quote (tripled for
a multiline string), then the body loop. -/
def kh_lexString (fuel : Nat) (is_buffer : Bool) (cur : List Nat) (errors : List String) :
    Option (List Nat × List Nat × List String) :=
  let (multiline, cur, errors) :=
    if khPeek cur = 34 then
      let cur := cur.tail
      if khPeek cur = 34 ∧ khPeek cur.tail = 34 then
        (true, cur.tail.tail, errors)
      else
        (false, cur, errors)
    else
      (false, cur, errors ++ ["expecting a double quote for a string"])
  kh_lexStringLoop is_buffer multiline fuel [] cur errors

/-! ## kh_lexNumber (lexer.c:162) -/

/-- Base-prefix block of `kh_lexNumber` (lexer.c:168): a leading `0`
followed by `b`, `o` or `x` selects base 2, 8 or 16, anything else
rewinds both code points; without a leading `0` the base is 10. -/
def kh_lexNumberBase (cur : List Nat) : Nat × List Nat :=
  if khPeek cur = 48 then
    -- 48 is the digit 0
    let cur1 := cur.tail
    let c := khPeek cur1
    let cur2 := cur1.tail
    match c with
    | 98 | 66 => (2, cur2)
    | 111 | 79 => (8, cur2)
    | 120 | 88 => (16, cur2)
    | _ => (10, cur)
  else
    (10, cur)

/-- Missing-digit diagnostic of `kh_lexNumber` (lexer.c:203), selected
by the base. -/
def kh_lexNumberBaseError (base : Nat) : List String :=
  match base with
  | 2 => ["expecting a binary number, either 0 or 1"]
  | 8 => ["expecting an octal number, from 0 to 7"]
  | 10 => ["expecting a decimal number, from 0 to 9"]
  | 16 => ["expecting a hexadecimal number, from 0 to 9 or A to F"]
  | _ => []

/-- Float-suffix switch of `kh_lexNumber` (lexer.c:229): `f`, `d`, `if`,
`id`, defaulting to a double. -/
def kh_lexNumberFloatSuffix (floating : CDouble) (cur : List Nat) : khToken × List Nat :=
  let c := khPeek cur
  let cur1 := cur.tail
  match c with
  | 102 | 70 => (khToken_fromFloat floating, cur1)
  | 100 | 68 => (khToken_fromDouble floating, cur1)
  | 105 | 73 =>
    -- the letter i: imaginary variants
    let c2 := khPeek cur1
    let cur2 := cur1.tail
    match c2 with
    | 102 | 70 => (khToken_fromIfloat floating, cur2)
    | 100 | 68 => (khToken_fromIdouble floating, cur2)
    | _ => (khToken_fromIdouble floating, cur1)
  | _ => (khToken_fromDouble floating, cur)

/-- Integer-suffix switch of `kh_lexNumber` (lexer.c:267): `b`, `s`,
`sb`, `ss`, `sl`, `l`, `u`, `ub`, `us`, `ul`, `f`, `d`, `i`, `if`,
`id`, defaulting to an int. -/
def kh_lexNumberIntSuffix (integer : Nat) (cur : List Nat) : khToken × List Nat :=
  let c := khPeek cur
  let cur1 := cur.tail
  match c with
  | 98 | 66 => (khToken_fromByte integer, cur1)
  | 115 | 83 =>
    -- the letter s
    let c2 := khPeek cur1
    let cur2 := cur1.tail
    match c2 with
    | 98 | 66 => (khToken_fromSbyte integer, cur2)
    | 115 | 83 => (khToken_fromShort integer, cur2)
    | 108 | 76 => (khToken_fromLong integer, cur2)
    | _ => (khToken_fromShort integer, cur1)
  | 108 | 76 => (khToken_fromLong integer, cur1)
  | 117 | 85 =>
    -- the letter u
    let c2 := khPeek cur1
    let cur2 := cur1.tail
    match c2 with
    | 98 | 66 => (khToken_fromByte integer, cur2)
    | 115 | 83 => (khToken_fromUshort integer, cur2)
    | 108 | 76 => (khToken_fromUlong integer, cur2)
    | _ => (khToken_fromUint integer, cur1)
  | 102 | 70 => (khToken_fromFloat (.val (integer : ℚ)), cur1)
  | 100 | 68 => (khToken_fromDouble (.val (integer : ℚ)), cur1)
  | 105 | 73 =>
    -- the letter i: imaginary variants
    let c2 := khPeek cur1
    let cur2 := cur1.tail
    match c2 with
    | 102 | 70 => (khToken_fromIfloat (.val (integer : ℚ)), cur2)
    | 100 | 68 => (khToken_fromIdouble (.val (integer : ℚ)), cur2)
    | _ => (khToken_fromIdouble (.val (integer : ℚ)), cur1)
  | _ => (khToken_fromInt integer, cur)

/-- Translation of `kh_lexNumber`: base prefix, 64-bit integer
accumulation, and either the float reparse from the origin (when the
next code point is `e`, `E`, `p`, `P` or a dot, or when the overflow
flag is set) or the integer-suffix switch. -/
def kh_lexNumber (cur : List Nat) (errors : List String) : khToken × List Nat × List String :=
  if digitOf (khPeek cur) > 9 then
    (khToken_fromNone, cur, errors ++ ["expecting a decimal number, from 0 to 9"])
  else
    let (base, cur) := kh_lexNumberBase cur
    let origin := cur
    let (integer, had_overflowed, cur) := kh_lexInt base USIZE_MAX origin
    if cur.length = origin.length then
      (khToken_fromNone, cur, errors ++ kh_lexNumberBaseError base)
    else if khPeek cur = 101 ∨ khPeek cur = 69 ∨ khPeek cur = 112 ∨ khPeek cur = 80 ∨
        khPeek cur = 46 ∨ had_overflowed then
      -- reparse from the origin as a float
      let (floating, cur) := kh_lexFloat base origin
      let (token, cur) := kh_lexNumberFloatSuffix floating cur
      (token, cur, errors)
    else
      let (token, cur) := kh_lexNumberIntSuffix integer cur
      (token, cur, errors)

/-! ## kh_lex (lexer.c:42) -/

/-- Whitespace-skipping loop at the top of `kh_lex` (lexer.c:44). -/
def kh_lexSkipWs : List Nat → List Nat
  | [] => []
  | c :: rest => if iswspace c then kh_lexSkipWs rest else c :: rest

/-- Comment loop of `kh_lex` (lexer.c:92): skip to the line feed or the
terminator, consuming the line feed. -/
def kh_lexCommentLoop : List Nat → List Nat
  | [] => []
  | c :: rest =>
    if c = 10 then rest
    else if c = 0 then c :: rest
    else kh_lexCommentLoop rest

/-- Translation of `kh_lex`: skip whitespace, then dispatch on the
first code point — alphabetic (with the `b`-prefix look-ahead for byte
characters and buffers) to words, decimal digits to numbers, quotes to
character or string literals, the hash sign to comments, and anything
else to symbols. -/
def kh_lex (fuel : Nat) (cur : List Nat) (errors : List String) :
    Option (khToken × List Nat × List String) :=
  let cur := kh_lexSkipWs cur
  if iswalpha (khPeek cur) then
    if khPeek cur = 98 ∨ khPeek cur = 66 then
      -- the letter b or B
      let cur1 := cur.tail
      match khPeek cur1 with
      | 39 =>
        -- byte characters
        let (chr, cur2, errors) := kh_lexChar true true cur1 errors
        some (khToken_fromByte chr, cur2, errors)
      | 34 =>
        -- buffers: each element keeps the low 8 bits of the code point
        match kh_lexString fuel true cur1 errors with
        | some (string, cur2, errors) =>
          some (khToken_fromBuffer (string.map (· % 256)), cur2, errors)
        | none => none
      | _ =>
        -- not a byte literal after all: rewind onto the b
        some (kh_lexWord cur errors)
    else
      some (kh_lexWord cur errors)
  else if digitOf (khPeek cur) < 10 then
    some (kh_lexNumber cur errors)
  else if khPeek cur = 39 then
    let (chr, cur1, errors) := kh_lexChar true false cur errors
    some (khToken_fromChar chr, cur1, errors)
  else if khPeek cur = 34 then
    match kh_lexString fuel false cur errors with
    | some (string, cur1, errors) => some (khToken_fromString string, cur1, errors)
    | none => none
  else if khPeek cur = 35 then
    -- 35 is the hash sign: a line comment
    some (khToken_fromComment, kh_lexCommentLoop cur.tail, errors)
  else
    some (kh_lexSymbol cur errors)

/-! ## Parser generation (parser.c)

parser.c includes `kithare/core/token.h` and `kithare/core/lexer.h`,
neither of which is among the sources; their token and AST types are
modelled from the identifiers parser.c uses together with the
specification (§3).  This generation is kept in its own namespace
because its enums differ from the lexer generation above (for example
`POW` against `POWER`, and `PARENTHESIS_OPEN` against
`PARENTHESES_OPEN`). -/

namespace KhParser

/-- Operator codes of the parser generation (`khOperatorToken` of
`kithare/core/token.h`), as referenced by parser.c. -/
inductive khOperatorToken where
  | ADD | SUB | MUL | DIV | MOD | POW
  | IADD | ISUB | IMUL | IDIV | IMOD | IPOW | IDOT
  | ASSIGN
  | INCREMENT | DECREMENT
  | EQUAL | NOT_EQUAL | LESS | MORE | ELESS | EMORE
  | NOT | AND | OR | XOR
  | BIT_AND | BIT_OR | BIT_XOR | BIT_NOT | BIT_LSHIFT | BIT_RSHIFT
  | IBIT_AND | IBIT_OR | IBIT_XOR | IBIT_LSHIFT | IBIT_RSHIFT
deriving DecidableEq

/-- Keyword codes of the parser generation, as referenced by parser.c;
they cover the full spec keyword set including `wild`, `incase` and
`in`. -/
inductive khKeywordToken where
  | IMPORT | INCLUDE | AS | TRY | DEF | CLASS | STRUCT | ENUM | ALIAS
  | REF | WILD | PUBLIC | PRIVATE | STATIC | INCASE
  | IF | ELIF | ELSE | FOR | WHILE | DO | BREAK | CONTINUE | RETURN | IN
deriving DecidableEq

/-- Delimiter codes of the parser generation, as referenced by
parser.c. -/
inductive khDelimiterToken where
  | COMMA | COLON | SEMICOLON
  | PARENTHESIS_OPEN | PARENTHESIS_CLOSE
  | CURLY_BRACKET_OPEN | CURLY_BRACKET_CLOSE
  | SQUARE_BRACKET_OPEN | SQUARE_BRACKET_CLOSE
  | DOT | ELLIPSIS | ARROW | EXCLAMATION
deriving DecidableEq

/-- Token union of the parser generation (`khToken` of
`kithare/core/token.h`), modelled from the `token.type` and payload
accesses in parser.c and the spec token list. -/
inductive khToken where
  | IDENTIFIER (identifier : String)
  | KEYWORD (keyword : khKeywordToken)
  | OPERATOR (operator_v : khOperatorToken)
  | DELIMITER (delimiter : khDelimiterToken)
  | CHAR (char_v : Nat)
  | STRING (string : String)
  | BUFFER (buffer : List Nat)
  | BYTE (byte : Nat)
  | INTEGER (integer : Int)
  | UINTEGER (uinteger : Nat)
  | FLOAT (float_v : CDouble)
  | DOUBLE (double_v : CDouble)
  | IFLOAT (ifloat : CDouble)
  | IDOUBLE (idouble : CDouble)
  | COMMENT
  | NEWLINE
  | EOF
  | NONE
deriving DecidableEq

/-- Unary AST operator codes (`khAstUnaryExpressionType`); the spec
expects a distinct `POST_DECREMENT`, so the enum carries it even though
parser.c never produces it. -/
inductive khAstUnaryExpressionType where
  | POSITIVE | NEGATIVE
  | PRE_INCREMENT | PRE_DECREMENT
  | NOT | BIT_NOT
  | POST_INCREMENT | POST_DECREMENT
deriving DecidableEq

/-- Binary AST operator codes (`khAstBinaryExpressionType`), as
referenced by parser.c. -/
inductive khAstBinaryExpressionType where
  | ADD | SUB | MUL | DIV | MOD | POW
  | IADD | ISUB | IMUL | IDIV | IMOD | IPOW | IDOT
  | ASSIGN
  | AND | OR | XOR
  | BIT_AND | BIT_OR | BIT_XOR | BIT_LSHIFT | BIT_RSHIFT
  | IBIT_AND | IBIT_OR | IBIT_XOR | IBIT_LSHIFT | IBIT_RSHIFT
deriving DecidableEq

/-- Comparison AST operator codes (`khAstComparisonExpressionType`). -/
inductive khAstComparisonExpressionType where
  | EQUAL | NOT_EQUAL | LESS | MORE | ELESS | EMORE
deriving DecidableEq

mutual

/-- Expression nodes (`khAstExpression`), with the per-variant payloads
parser.c constructs; the `begin`/`end` pointers are not modelled. -/
inductive khAstExpression where
  | INVALID
  | IDENTIFIER (identifier : String)
  | CHAR (char_v : Nat)
  | STRING (string : String)
  | BUFFER (buffer : List Nat)
  | BYTE (byte : Nat)
  | INTEGER (integer : Int)
  | UINTEGER (uinteger : Nat)
  | FLOAT (float_v : CDouble)
  | DOUBLE (double_v : CDouble)
  | IFLOAT (ifloat : CDouble)
  | IDOUBLE (idouble : CDouble)
  | TUPLE (values : List khAstExpression)
  | ARRAY (values : List khAstExpression)
  | DICT (keys : List khAstExpression) (values : List khAstExpression)
  | UNARY (type_v : khAstUnaryExpressionType) (operand : khAstExpression)
  | BINARY (type_v : khAstBinaryExpressionType) (left : khAstExpression)
      (right : khAstExpression)
  | TERNARY (value : khAstExpression) (condition : khAstExpression)
      (otherwise : khAstExpression)
  | COMPARISON (operations : List khAstComparisonExpressionType)
      (operands : List khAstExpression)
  | CALL (callee : khAstExpression) (arguments : List khAstExpression)
  | INDEX (indexee : khAstExpression) (arguments : List khAstExpression)
  | SCOPE (value : khAstExpression) (scope_names : List String)
  | TEMPLATIZE (value : khAstExpression) (template_arguments : List khAstExpression)
  | VARIABLE_DECLARATION (is_static : Bool) (is_wild : Bool) (is_ref : Bool)
      (name : String) (optional_type : Option khAstExpression)
      (optional_initializer : Option khAstExpression)
  | LAMBDA (arguments : List khAstExpression)
      (optional_variadic_argument : Option khAstExpression)
      (is_return_type_ref : Bool) (optional_return_type : Option khAstExpression)
      (content : List khAst)
  | FUNCTION_TYPE (are_arguments_refs : List Bool)
      (argument_types : List khAstExpression)
      (is_return_type_ref : Bool) (optional_return_type : Option khAstExpression)

/-- Statement nodes (`khAst`); the specialised payload structs of ast.h
(`khAstImport`, `khAstClass`, and so on) are flattened into the
constructor arguments. -/
inductive khAst where
  | INVALID
  | IMPORT (path : List String) (relative : Bool) (optional_alias : Option String)
  | INCLUDE (path : List String) (relative : Bool)
  | FUNCTION (is_incase : Bool) (is_static : Bool) (name_point : khAstExpression)
      (arguments : List khAstExpression)
      (optional_variadic_argument : Option khAstExpression)
      (is_return_type_ref : Bool) (optional_return_type : Option khAstExpression)
      (content : List khAst)
  | CLASS (is_incase : Bool) (name : String) (template_arguments : List String)
      (optional_base_type : Option khAstExpression) (content : List khAst)
  | STRUCT (is_incase : Bool) (name : String) (template_arguments : List String)
      (optional_base_type : Option khAstExpression) (content : List khAst)
  | ENUM (name : String) (members : List String)
  | ALIAS (is_incase : Bool) (name : String) (expression : khAstExpression)
  | IF_BRANCH (branch_conditions : List khAstExpression)
      (branch_contents : List (List khAst)) (else_content : List khAst)
  | WHILE_LOOP (condition : khAstExpression) (content : List khAst)
  | DO_WHILE_LOOP (condition : khAstExpression) (content : List khAst)
  | FOR_LOOP (initial_expression : khAstExpression)
      (loop_condition : khAstExpression) (update_expression : khAstExpression)
      (content : List khAst)
  | FOR_EACH_LOOP (iterators : List khAstExpression) (iteratee : khAstExpression)
      (content : List khAst)
  | BREAK
  | CONTINUE
  | RETURN (values : List khAstExpression)
  | EXPRESSION (expression : khAstExpression)

end

/-- Parse-time state: the cursor, as the list of tokens still ahead of
it (mirroring the `char32_t**` cursor into the NUL-terminated buffer),
and the accumulated messages of the global error hook `kh_raiseError`. -/
structure ParseState where
  cur : List khToken
  errs : List String
deriving DecidableEq

/-- Translation of `raiseError` (parser.c:14): append a parser error;
the source also stores a source pointer, which is not modelled. -/
def raiseError (message : String) (st : ParseState) : ParseState :=
  { st with errs := st.errs ++ [message] }

/-- Modelled from the spec: `kh_lexToken` of `kithare/core/lexer.h` is
not among the sources.  Per the lexer contract (§4.1) it yields one
token per call and advances the cursor past it, and end-of-input yields
`EOF`; the embedding therefore pops the head of a pre-lexed token
stream, staying put at the end. -/
def kh_lexToken : List khToken → khToken × List khToken
  | [] => (.EOF, [])
  | t :: rest => (t, rest)

/-- Skipping loop of `currentToken` (parser.c:24): while the lexed
token is a comment, or a newline in ignore-newline mode, commit the
cursor past it and lex again.  Returns the token and the committed
cursor, which still carries the returned token in front. -/
def currentTokenGo (ignore_newline : Bool) : List khToken → khToken × List khToken
  | [] => (.EOF, [])
  | t :: rest =>
    match t with
    | .COMMENT => currentTokenGo ignore_newline rest
    | .NEWLINE =>
      if ignore_newline then currentTokenGo ignore_newline rest
      else (.NEWLINE, .NEWLINE :: rest)
    | _ => (t, t :: rest)

/-- Translation of `currentToken` (parser.c:19). -/
def currentToken (ignore_newline : Bool) (cur : List khToken) : khToken × List khToken :=
  currentTokenGo ignore_newline cur

/-- Skipping loop of `skipToken` (parser.c:39), with the already
consumed token in hand. -/
def skipTokenGo (ignore_newline : Bool) : khToken → List khToken → List khToken
  | .COMMENT, [] => []
  | .COMMENT, t :: rest => skipTokenGo ignore_newline t rest
  | .NEWLINE, [] => if ignore_newline then [] else []
  | .NEWLINE, t :: rest =>
    if ignore_newline then skipTokenGo ignore_newline t rest
    else t :: rest
  | _, cur => cur

/-- Translation of `skipToken` (parser.c:34): consume one meaningful
token together with the comment and newline trivia in front of it.  The
final guard advances one raw unit when nothing was consumed before the
end of the input; two cursors into the same stream are the same pointer
exactly when they have the same length. -/
def skipToken (ignore_newline : Bool) (cur : List khToken) : List khToken :=
  let (token, next) := kh_lexToken cur
  let result := skipTokenGo ignore_newline token next
  if result.length = cur.length ∧ cur ≠ [] then cur.tail else result

/-- Translation of `isEnd` (parser.c:52): look ahead, skipping comments
and newlines, without committing the cursor. -/
def isEnd (cur : List khToken) : Bool :=
  match (currentTokenGo true cur).1 with
  | .EOF => true
  | _ => false

/-- Convenience unfolding of a `currentToken` call site: the token and
the state with the committed cursor. -/
def curTok (ignore_newline : Bool) (st : ParseState) : khToken × ParseState :=
  let (token, cur) := currentToken ignore_newline st.cur
  (token, ⟨cur, st.errs⟩)

/-- Convenience unfolding of a `skipToken` call site. -/
def skipSt (ignore_newline : Bool) (st : ParseState) : ParseState :=
  ⟨skipToken ignore_newline st.cur, st.errs⟩

/-! ### Statement helpers without expression recursion -/

/-- Loop of `sparseSpecifiers` (parser.c:434): absorb `incase` and
`static` keywords, raising when one is not allowed; the gas is bounded
by the token stream because every iteration consumes the specifier. -/
def sparseSpecifiersLoop (allow_incase allow_static ignore_newline : Bool) :
    Nat → khToken → Bool → Bool → ParseState → Bool × Bool × ParseState
  | 0, _, is_incase, is_static, st => (is_incase, is_static, st)
  | gas + 1, token, is_incase, is_static, st =>
    match token with
    | .KEYWORD .INCASE =>
      let (is_incase, st) :=
        if ¬allow_incase then
          (is_incase, raiseError ("the `incase` keyword is not allowed here") st)
        else (true, st)
      let st := skipSt ignore_newline st
      let (token, st) := curTok ignore_newline st
      sparseSpecifiersLoop allow_incase allow_static ignore_newline gas token
        is_incase is_static st
    | .KEYWORD .STATIC =>
      let (is_static, st) :=
        if ¬allow_static then
          (is_static, raiseError ("the `static` keyword is not allowed here") st)
        else (true, st)
      let st := skipSt ignore_newline st
      let (token, st) := curTok ignore_newline st
      sparseSpecifiersLoop allow_incase allow_static ignore_newline gas token
        is_incase is_static st
    | _ => (is_incase, is_static, st)

/-- Translation of `sparseSpecifiers` (parser.c:423).  The C out
parameters may be NULL, in which case nothing is stored; the embedding
always returns both flags and the callers of a NULL pointer ignore
them. -/
def sparseSpecifiers (allow_incase allow_static ignore_newline : Bool)
    (st : ParseState) : Bool × Bool × ParseState :=
  let (token, st) := curTok ignore_newline st
  sparseSpecifiersLoop allow_incase allow_static ignore_newline
    (st.cur.length + 1) token false false st

/-- Shared statement-terminator epilogue (parser.c:540 and the like):
a newline, end of input or a semicolon is consumed, a closing curly
bracket is left in place, and anything else raises and is left in
place. -/
def sparseTerminator (token : khToken) (st : ParseState) : ParseState :=
  match token with
  | .NEWLINE | .EOF | .DELIMITER .SEMICOLON => skipSt false st
  | .DELIMITER .CURLY_BRACKET_CLOSE => st
  | _ => raiseError ("expecting a newline or a semicolon") st

/-- Dotted-path loop of `sparseImport` and `sparseInclude`
(parser.c:506): while the token is a dot, consume it and expect another
identifier. -/
def sparsePathDots :
    Nat → khToken → List String → ParseState → List String × khToken × ParseState
  | 0, token, path, st => (path, token, st)
  | gas + 1, token, path, st =>
    match token with
    | .DELIMITER .DOT =>
      let st := skipSt false st
      let (token, st) := curTok false st
      match token with
      | .IDENTIFIER id =>
        let st := skipSt false st
        let (token, st) := curTok false st
        sparsePathDots gas token (path ++ [id]) st
      | _ =>
        sparsePathDots gas token path (raiseError ("expecting another identifier") st)
    | _ => (path, token, st)

/-- Translation of `sparseImport` (parser.c:471), with the statement
wrapper of `sparseStatement` collapsed into the returned `IMPORT`
node. -/
def sparseImport (st : ParseState) : khAst × ParseState :=
  let (token, st) := curTok true st
  let (token, st) :=
    match token with
    | .KEYWORD .IMPORT =>
      let st := skipSt false st
      curTok false st
    | _ => (token, raiseError ("expecting an `import` keyword") st)
  let (relative, token, st) :=
    match token with
    | .DELIMITER .DOT =>
      let st := skipSt false st
      let (token, st) := curTok false st
      (true, token, st)
    | _ => (false, token, st)
  let (path, token, st) :=
    match token with
    | .IDENTIFIER id =>
      let st := skipSt false st
      let (token, st) := curTok false st
      ([id], token, st)
    | _ => ([], token, raiseError ("expecting something to import") st)
  let (path, token, st) := sparsePathDots (st.cur.length + 1) token path st
  let (optional_alias, token, st) :=
    match token with
    | .KEYWORD .AS =>
      let st := skipSt false st
      let (token, st) := curTok false st
      match token with
      | .IDENTIFIER id =>
        let st := skipSt false st
        let (token, st) := curTok false st
        (some id, token, st)
      | _ =>
        (none, token,
          raiseError ("expecting an identifier to alias the imported module as") st)
    | _ => (none, token, st)
  let st := sparseTerminator token st
  (.IMPORT path relative optional_alias, st)

/-- Translation of `sparseInclude` (parser.c:557), with the statement
wrapper collapsed into the returned `INCLUDE` node. -/
def sparseInclude (st : ParseState) : khAst × ParseState :=
  let (token, st) := curTok true st
  let (token, st) :=
    match token with
    | .KEYWORD .INCLUDE =>
      let st := skipSt false st
      curTok false st
    | _ => (token, raiseError ("expecting an `include` keyword") st)
  let (relative, token, st) :=
    match token with
    | .DELIMITER .DOT =>
      let st := skipSt false st
      let (token, st) := curTok false st
      (true, token, st)
    | _ => (false, token, st)
  let (path, token, st) :=
    match token with
    | .IDENTIFIER id =>
      let st := skipSt false st
      let (token, st) := curTok false st
      ([id], token, st)
    | _ => ([], token, raiseError ("expecting something to include") st)
  let (path, token, st) := sparsePathDots (st.cur.length + 1) token path st
  let st := sparseTerminator token st
  (.INCLUDE path relative, st)

/-- Member loop of `sparseEnum` (parser.c:929): a do-while that expects
a member name, consumes one token, and repeats while the next token is
a comma (so the comma itself is seen as the expected member of the
following iteration). -/
def sparseEnumMembers :
    Nat → khToken → List String → ParseState → List String × khToken × ParseState
  | 0, token, members, st => (members, token, st)
  | gas + 1, token, members, st =>
    let (members, st) :=
      match token with
      | .IDENTIFIER id => (members ++ [id], st)
      | _ => (members, raiseError ("expecting a member name") st)
    let st := skipSt true st
    let (token, st) := curTok true st
    match token with
    | .DELIMITER .COMMA => sparseEnumMembers gas token members st
    | _ => (members, token, st)

/-- Translation of `sparseEnum` (parser.c:894), with the statement
wrapper collapsed into the returned `ENUM` node.  The stale `token`
captured before `sparseSpecifiers` is compared against the `enum`
keyword, exactly as in the source. -/
def sparseEnum (st : ParseState) : khAst × ParseState :=
  let (token, st) := curTok true st
  let (_, _, st) := sparseSpecifiers false false true st
  let (token, st) :=
    match token with
    | .KEYWORD .ENUM =>
      let st := skipSt false st
      curTok false st
    | _ => (token, raiseError ("expecting an `enum` keyword") st)
  let (name, token, st) :=
    match token with
    | .IDENTIFIER id =>
      let st := skipSt false st
      let (token, st) := curTok false st
      (id, token, st)
    | _ => ("", token, raiseError ("expecting a name for the enum type") st)
  let (members, st) :=
    match token with
    | .DELIMITER .CURLY_BRACKET_OPEN =>
      let st := skipSt true st
      let (token, st) := curTok true st
      let (members, token, st) := sparseEnumMembers (st.cur.length + 1) token [] st
      let st :=
        match token with
        | .DELIMITER .CURLY_BRACKET_CLOSE => skipSt true st
        | _ =>
          raiseError ("expecting a comma with another member or a closing curly bracket") st
      (members, st)
    | _ => ([], raiseError ("expecting a `class` keyword") st)
  (.ENUM name members, st)

/-- Translation of `sparseBreak` (parser.c:1187): the keyword and a
statement terminator. -/
def sparseBreak (st : ParseState) : ParseState :=
  let (token, st) := curTok true st
  let (token, st) :=
    match token with
    | .KEYWORD .BREAK =>
      let st := skipSt true st
      curTok true st
    | _ => (token, raiseError ("expecting a `break` keyword") st)
  sparseTerminator token st

/-- Translation of `sparseContinue` (parser.c:1216). -/
def sparseContinue (st : ParseState) : ParseState :=
  let (token, st) := curTok true st
  let (token, st) :=
    match token with
    | .KEYWORD .CONTINUE =>
      let st := skipSt true st
      curTok true st
    | _ => (token, raiseError ("expecting a `continue` keyword") st)
  sparseTerminator token st

/-- Template-argument loop of `sparseClassOrStruct` (parser.c:785): a
do-while whose leading skip consumes the opening parenthesis or the
comma, then expects a template-argument name and consumes it. -/
def sparseTemplateArgs :
    Nat → List String → ParseState → List String × khToken × ParseState
  | 0, args, st => (args, (currentToken true st.cur).1, st)
  | gas + 1, args, st =>
    let st := skipSt true st
    let (token, st) := curTok true st
    let (args, st) :=
      match token with
      | .IDENTIFIER id => (args ++ [id], st)
      | _ => (args, raiseError ("expecting the name for a template argument") st)
    let st := skipSt true st
    let (token, st) := curTok true st
    match token with
    | .DELIMITER .COMMA => sparseTemplateArgs gas args st
    | _ => (args, token, st)

/-- Comparison-operator table of `exparseComparisonOperators`
(parser.c:1532): the comparison AST code of an operator token, when it
is one of the six chain operators. -/
def compOf : khOperatorToken → Option khAstComparisonExpressionType
  | .EQUAL => some .EQUAL
  | .NOT_EQUAL => some .NOT_EQUAL
  | .LESS => some .LESS
  | .MORE => some .MORE
  | .ELESS => some .ELESS
  | .EMORE => some .EMORE
  | _ => none

/-- Entry guard of the comparison chain (parser.c:1521): the token is
one of the six comparison operators. -/
def isCompTok : khToken → Bool
  | .OPERATOR o => (compOf o).isSome
  | _ => false

/-- In-place operator table of `exparseInplaceOperators`
(parser.c:1372): the binary AST code of each level-1 operator token. -/
def inplaceOf : khOperatorToken → Option khAstBinaryExpressionType
  | .IADD => some .IADD
  | .ISUB => some .ISUB
  | .IMUL => some .IMUL
  | .IDIV => some .IDIV
  | .IMOD => some .IMOD
  | .IPOW => some .IPOW
  | .IDOT => some .IDOT
  | .ASSIGN => some .ASSIGN
  | .IBIT_AND => some .IBIT_AND
  | .IBIT_OR => some .IBIT_OR
  | .IBIT_XOR => some .IBIT_XOR
  | .IBIT_LSHIFT => some .IBIT_LSHIFT
  | .IBIT_RSHIFT => some .IBIT_RSHIFT
  | _ => none

/-- Shift-operator table of `exparseBitwiseShifts` (parser.c:1603). -/
def shiftOf : khOperatorToken → Option khAstBinaryExpressionType
  | .BIT_LSHIFT => some .BIT_LSHIFT
  | .BIT_RSHIFT => some .BIT_RSHIFT
  | _ => none

/-- Additive-operator table of `exparseAddSub` (parser.c:1635). -/
def addSubOf : khOperatorToken → Option khAstBinaryExpressionType
  | .ADD => some .ADD
  | .SUB => some .SUB
  | _ => none

/-- Multiplicative-operator table of `exparseMulDivMod`
(parser.c:1667). -/
def mulDivModOf : khOperatorToken → Option khAstBinaryExpressionType
  | .MUL => some .MUL
  | .DIV => some .DIV
  | .MOD => some .MOD
  | _ => none

/-- Inner dot loop of `exparseScopeTemplatization` (parser.c:1872):
while the token is a dot, consume it and expect an identifier to scope
into.  The gas is bounded by the stream because every iteration
consumes the dot. -/
def exparseScopeNames (ignore_newline : Bool) :
    Nat → khToken → List String → ParseState → List String × khToken × ParseState
  | 0, token, names, st => (names, token, st)
  | gas + 1, token, names, st =>
    match token with
    | .DELIMITER .DOT =>
      let st := skipSt ignore_newline st
      let (token, st) := curTok ignore_newline st
      match token with
      | .IDENTIFIER id =>
        let st := skipSt ignore_newline st
        let (token, st) := curTok ignore_newline st
        exparseScopeNames ignore_newline gas token (names ++ [id]) st
      | _ =>
        exparseScopeNames ignore_newline gas token names
          (raiseError ("expecting an identifier to scope into") st)
    | _ => (names, token, st)

mutual

/-- Translation of `exparseInplaceOperators` (parser.c:1357), the
level-1 entry of the precedence ladder (`kh_parseExpression`). -/
def exparseInplaceOperators :
    Nat → Bool → Bool → ParseState → khAstExpression × ParseState
  | 0, _, _, st => (.INVALID, st)
  | fuel + 1, ignore_newline, filter_type, st =>
    let (_, st) := curTok ignore_newline st
    let (expression, st) := exparseTernary fuel ignore_newline filter_type st
    if filter_type then (expression, st)
    else
      let (token, st) := curTok ignore_newline st
      exparseInplaceLoop fuel ignore_newline filter_type token expression st

/-- Loop of `exparseInplaceOperators`: a left fold of `RCD_BINARY_CASE`
over the in-place operators and the plain assignment. -/
def exparseInplaceLoop :
    Nat → Bool → Bool → khToken → khAstExpression → ParseState →
      khAstExpression × ParseState
  | 0, _, _, _, expression, st => (expression, st)
  | fuel + 1, ignore_newline, filter_type, token, expression, st =>
    match token with
    | .OPERATOR o =>
      match inplaceOf o with
      | some type_v =>
        let st := skipSt ignore_newline st
        let (right, st) := exparseTernary fuel ignore_newline filter_type st
        let expression := khAstExpression.BINARY type_v expression right
        let (token, st) := curTok ignore_newline st
        exparseInplaceLoop fuel ignore_newline filter_type token expression st
      | none => (expression, st)
    | _ => (expression, st)

/-- Translation of `exparseTernary` (parser.c:1413). -/
def exparseTernary :
    Nat → Bool → Bool → ParseState → khAstExpression × ParseState
  | 0, _, _, st => (.INVALID, st)
  | fuel + 1, ignore_newline, filter_type, st =>
    let (_, st) := curTok ignore_newline st
    let (expression, st) := exparseLogicalOr fuel ignore_newline filter_type st
    if filter_type then (expression, st)
    else
      let (token, st) := curTok ignore_newline st
      exparseTernaryLoop fuel ignore_newline filter_type token expression st

/-- Loop of `exparseTernary`: while an `if` keyword follows the value,
read the condition, require `else`, and read the otherwise value. -/
def exparseTernaryLoop :
    Nat → Bool → Bool → khToken → khAstExpression → ParseState →
      khAstExpression × ParseState
  | 0, _, _, _, expression, st => (expression, st)
  | fuel + 1, ignore_newline, filter_type, token, expression, st =>
    match token with
    | .KEYWORD .IF =>
      let st := skipSt ignore_newline st
      let (condition, st) := exparseLogicalOr fuel ignore_newline filter_type st
      let (token, st) := curTok ignore_newline st
      let st :=
        match token with
        | .KEYWORD .ELSE => skipSt ignore_newline st
        | _ => raiseError ("expecting an `else` keyword after the condition") st
      let (otherwise, st) := exparseLogicalOr fuel ignore_newline filter_type st
      let expression := khAstExpression.TERNARY expression condition otherwise
      let (token, st) := curTok ignore_newline st
      exparseTernaryLoop fuel ignore_newline filter_type token expression st
    | _ => (expression, st)

/-- Translation of `exparseLogicalOr` (parser.c:1467), an
`RCD_BINARY` instance. -/
def exparseLogicalOr :
    Nat → Bool → Bool → ParseState → khAstExpression × ParseState
  | 0, _, _, st => (.INVALID, st)
  | fuel + 1, ignore_newline, filter_type, st =>
    let (_, st) := curTok ignore_newline st
    let (expression, st) := exparseLogicalXor fuel ignore_newline filter_type st
    if filter_type then (expression, st)
    else
      let (token, st) := curTok ignore_newline st
      exparseLogicalOrLoop fuel ignore_newline filter_type token expression st

/-- Loop of `exparseLogicalOr`: a left fold over `or`. -/
def exparseLogicalOrLoop :
    Nat → Bool → Bool → khToken → khAstExpression → ParseState →
      khAstExpression × ParseState
  | 0, _, _, _, expression, st => (expression, st)
  | fuel + 1, ignore_newline, filter_type, token, expression, st =>
    match token with
    | .OPERATOR .OR =>
      let st := skipSt ignore_newline st
      let (right, st) := exparseLogicalXor fuel ignore_newline filter_type st
      let expression := khAstExpression.BINARY .OR expression right
      let (token, st) := curTok ignore_newline st
      exparseLogicalOrLoop fuel ignore_newline filter_type token expression st
    | _ => (expression, st)

/-- Translation of `exparseLogicalXor` (parser.c:1471). -/
def exparseLogicalXor :
    Nat → Bool → Bool → ParseState → khAstExpression × ParseState
  | 0, _, _, st => (.INVALID, st)
  | fuel + 1, ignore_newline, filter_type, st =>
    let (_, st) := curTok ignore_newline st
    let (expression, st) := exparseLogicalAnd fuel ignore_newline filter_type st
    if filter_type then (expression, st)
    else
      let (token, st) := curTok ignore_newline st
      exparseLogicalXorLoop fuel ignore_newline filter_type token expression st

/-- Loop of `exparseLogicalXor`: a left fold over `xor`. -/
def exparseLogicalXorLoop :
    Nat → Bool → Bool → khToken → khAstExpression → ParseState →
      khAstExpression × ParseState
  | 0, _, _, _, expression, st => (expression, st)
  | fuel + 1, ignore_newline, filter_type, token, expression, st =>
    match token with
    | .OPERATOR .XOR =>
      let st := skipSt ignore_newline st
      let (right, st) := exparseLogicalAnd fuel ignore_newline filter_type st
      let expression := khAstExpression.BINARY .XOR expression right
      let (token, st) := curTok ignore_newline st
      exparseLogicalXorLoop fuel ignore_newline filter_type token expression st
    | _ => (expression, st)

/-- Translation of `exparseLogicalAnd` (parser.c:1475). -/
def exparseLogicalAnd :
    Nat → Bool → Bool → ParseState → khAstExpression × ParseState
  | 0, _, _, st => (.INVALID, st)
  | fuel + 1, ignore_newline, filter_type, st =>
    let (_, st) := curTok ignore_newline st
    let (expression, st) := exparseLogicalNot fuel ignore_newline filter_type st
    if filter_type then (expression, st)
    else
      let (token, st) := curTok ignore_newline st
      exparseLogicalAndLoop fuel ignore_newline filter_type token expression st

/-- Loop of `exparseLogicalAnd`: a left fold over `and`. -/
def exparseLogicalAndLoop :
    Nat → Bool → Bool → khToken → khAstExpression → ParseState →
      khAstExpression × ParseState
  | 0, _, _, _, expression, st => (expression, st)
  | fuel + 1, ignore_newline, filter_type, token, expression, st =>
    match token with
    | .OPERATOR .AND =>
      let st := skipSt ignore_newline st
      let (right, st) := exparseLogicalNot fuel ignore_newline filter_type st
      let expression := khAstExpression.BINARY .AND expression right
      let (token, st) := curTok ignore_newline st
      exparseLogicalAndLoop fuel ignore_newline filter_type token expression st
    | _ => (expression, st)

/-- Translation of `exparseLogicalNot` (parser.c:1479): a prefix `not`
level, skipped entirely in type-filter mode. -/
def exparseLogicalNot :
    Nat → Bool → Bool → ParseState → khAstExpression × ParseState
  | 0, _, _, st => (.INVALID, st)
  | fuel + 1, ignore_newline, filter_type, st =>
    if filter_type then
      exparseComparisonOperators fuel ignore_newline filter_type st
    else
      let (token, st) := curTok ignore_newline st
      match token with
      | .OPERATOR .NOT =>
        let st := skipSt ignore_newline st
        let (expression, st) := exparseLogicalNot fuel ignore_newline filter_type st
        (.UNARY .NOT expression, st)
      | _ =>
        exparseComparisonOperators fuel ignore_newline filter_type st

/-- Translation of `exparseComparisonOperators` (parser.c:1507): when a
comparison operator follows the first operand, collect an n-ary chain
of operators and operands into one `COMPARISON` node. -/
def exparseComparisonOperators :
    Nat → Bool → Bool → ParseState → khAstExpression × ParseState
  | 0, _, _, st => (.INVALID, st)
  | fuel + 1, ignore_newline, filter_type, st =>
    let (_, st) := curTok ignore_newline st
    let (expression, st) := exparseBitwiseOr fuel ignore_newline filter_type st
    if filter_type then (expression, st)
    else
      let (token, st) := curTok ignore_newline st
      if isCompTok token then
        let (operations, operands, st) :=
          exparseComparisonLoop fuel ignore_newline filter_type token [] [expression] st
        (.COMPARISON operations operands, st)
      else (expression, st)

/-- Chain loop of `exparseComparisonOperators` (parser.c:1531): while
the token is an operator in the comparison table, append its code and
the following operand. -/
def exparseComparisonLoop :
    Nat → Bool → Bool → khToken → List khAstComparisonExpressionType →
      List khAstExpression → ParseState →
      List khAstComparisonExpressionType × List khAstExpression × ParseState
  | 0, _, _, _, operations, operands, st => (operations, operands, st)
  | fuel + 1, ignore_newline, filter_type, token, operations, operands, st =>
    match token with
    | .OPERATOR o =>
      match compOf o with
      | some op =>
        let st := skipSt ignore_newline st
        let (operand, st) := exparseBitwiseOr fuel ignore_newline filter_type st
        let (token, st) := curTok ignore_newline st
        exparseComparisonLoop fuel ignore_newline filter_type token
          (operations ++ [op]) (operands ++ [operand]) st
      | none => (operations, operands, st)
    | _ => (operations, operands, st)

/-- Translation of `exparseBitwiseOr` (parser.c:1576). -/
def exparseBitwiseOr :
    Nat → Bool → Bool → ParseState → khAstExpression × ParseState
  | 0, _, _, st => (.INVALID, st)
  | fuel + 1, ignore_newline, filter_type, st =>
    let (_, st) := curTok ignore_newline st
    let (expression, st) := exparseBitwiseXor fuel ignore_newline filter_type st
    if filter_type then (expression, st)
    else
      let (token, st) := curTok ignore_newline st
      exparseBitwiseOrLoop fuel ignore_newline filter_type token expression st

/-- Loop of `exparseBitwiseOr`: a left fold over the vertical bar. -/
def exparseBitwiseOrLoop :
    Nat → Bool → Bool → khToken → khAstExpression → ParseState →
      khAstExpression × ParseState
  | 0, _, _, _, expression, st => (expression, st)
  | fuel + 1, ignore_newline, filter_type, token, expression, st =>
    match token with
    | .OPERATOR .BIT_OR =>
      let st := skipSt ignore_newline st
      let (right, st) := exparseBitwiseXor fuel ignore_newline filter_type st
      let expression := khAstExpression.BINARY .BIT_OR expression right
      let (token, st) := curTok ignore_newline st
      exparseBitwiseOrLoop fuel ignore_newline filter_type token expression st
    | _ => (expression, st)

/-- Translation of `exparseBitwiseXor` (parser.c:1580). -/
def exparseBitwiseXor :
    Nat → Bool → Bool → ParseState → khAstExpression × ParseState
  | 0, _, _, st => (.INVALID, st)
  | fuel + 1, ignore_newline, filter_type, st =>
    let (_, st) := curTok ignore_newline st
    let (expression, st) := exparseBitwiseAnd fuel ignore_newline filter_type st
    if filter_type then (expression, st)
    else
      let (token, st) := curTok ignore_newline st
      exparseBitwiseXorLoop fuel ignore_newline filter_type token expression st

/-- Loop of `exparseBitwiseXor`: a left fold over the caret. -/
def exparseBitwiseXorLoop :
    Nat → Bool → Bool → khToken → khAstExpression → ParseState →
      khAstExpression × ParseState
  | 0, _, _, _, expression, st => (expression, st)
  | fuel + 1, ignore_newline, filter_type, token, expression, st =>
    match token with
    | .OPERATOR .BIT_XOR =>
      let st := skipSt ignore_newline st
      let (right, st) := exparseBitwiseAnd fuel ignore_newline filter_type st
      let expression := khAstExpression.BINARY .BIT_XOR expression right
      let (token, st) := curTok ignore_newline st
      exparseBitwiseXorLoop fuel ignore_newline filter_type token expression st
    | _ => (expression, st)

/-- Translation of `exparseBitwiseAnd` (parser.c:1584). -/
def exparseBitwiseAnd :
    Nat → Bool → Bool → ParseState → khAstExpression × ParseState
  | 0, _, _, st => (.INVALID, st)
  | fuel + 1, ignore_newline, filter_type, st =>
    let (_, st) := curTok ignore_newline st
    let (expression, st) := exparseBitwiseShifts fuel ignore_newline filter_type st
    if filter_type then (expression, st)
    else
      let (token, st) := curTok ignore_newline st
      exparseBitwiseAndLoop fuel ignore_newline filter_type token expression st

/-- Loop of `exparseBitwiseAnd`: a left fold over the ampersand. -/
def exparseBitwiseAndLoop :
    Nat → Bool → Bool → khToken → khAstExpression → ParseState →
      khAstExpression × ParseState
  | 0, _, _, _, expression, st => (expression, st)
  | fuel + 1, ignore_newline, filter_type, token, expression, st =>
    match token with
    | .OPERATOR .BIT_AND =>
      let st := skipSt ignore_newline st
      let (right, st) := exparseBitwiseShifts fuel ignore_newline filter_type st
      let expression := khAstExpression.BINARY .BIT_AND expression right
      let (token, st) := curTok ignore_newline st
      exparseBitwiseAndLoop fuel ignore_newline filter_type token expression st
    | _ => (expression, st)

/-- Translation of `exparseBitwiseShifts` (parser.c:1588). -/
def exparseBitwiseShifts :
    Nat → Bool → Bool → ParseState → khAstExpression × ParseState
  | 0, _, _, st => (.INVALID, st)
  | fuel + 1, ignore_newline, filter_type, st =>
    let (_, st) := curTok ignore_newline st
    let (expression, st) := exparseAddSub fuel ignore_newline filter_type st
    if filter_type then (expression, st)
    else
      let (token, st) := curTok ignore_newline st
      exparseBitwiseShiftsLoop fuel ignore_newline filter_type token expression st

/-- Loop of `exparseBitwiseShifts`: a left fold over the shifts. -/
def exparseBitwiseShiftsLoop :
    Nat → Bool → Bool → khToken → khAstExpression → ParseState →
      khAstExpression × ParseState
  | 0, _, _, _, expression, st => (expression, st)
  | fuel + 1, ignore_newline, filter_type, token, expression, st =>
    match token with
    | .OPERATOR o =>
      match shiftOf o with
      | some type_v =>
        let st := skipSt ignore_newline st
        let (right, st) := exparseAddSub fuel ignore_newline filter_type st
        let expression := khAstExpression.BINARY type_v expression right
        let (token, st) := curTok ignore_newline st
        exparseBitwiseShiftsLoop fuel ignore_newline filter_type token expression st
      | none => (expression, st)
    | _ => (expression, st)

/-- Translation of `exparseAddSub` (parser.c:1620). -/
def exparseAddSub :
    Nat → Bool → Bool → ParseState → khAstExpression × ParseState
  | 0, _, _, st => (.INVALID, st)
  | fuel + 1, ignore_newline, filter_type, st =>
    let (_, st) := curTok ignore_newline st
    let (expression, st) := exparseMulDivMod fuel ignore_newline filter_type st
    if filter_type then (expression, st)
    else
      let (token, st) := curTok ignore_newline st
      exparseAddSubLoop fuel ignore_newline filter_type token expression st

/-- Loop of `exparseAddSub`: a left fold over plus and minus. -/
def exparseAddSubLoop :
    Nat → Bool → Bool → khToken → khAstExpression → ParseState →
      khAstExpression × ParseState
  | 0, _, _, _, expression, st => (expression, st)
  | fuel + 1, ignore_newline, filter_type, token, expression, st =>
    match token with
    | .OPERATOR o =>
      match addSubOf o with
      | some type_v =>
        let st := skipSt ignore_newline st
        let (right, st) := exparseMulDivMod fuel ignore_newline filter_type st
        let expression := khAstExpression.BINARY type_v expression right
        let (token, st) := curTok ignore_newline st
        exparseAddSubLoop fuel ignore_newline filter_type token expression st
      | none => (expression, st)
    | _ => (expression, st)

/-- Translation of `exparseMulDivMod` (parser.c:1652). -/
def exparseMulDivMod :
    Nat → Bool → Bool → ParseState → khAstExpression × ParseState
  | 0, _, _, st => (.INVALID, st)
  | fuel + 1, ignore_newline, filter_type, st =>
    let (_, st) := curTok ignore_newline st
    let (expression, st) := exparsePow fuel ignore_newline filter_type st
    if filter_type then (expression, st)
    else
      let (token, st) := curTok ignore_newline st
      exparseMulDivModLoop fuel ignore_newline filter_type token expression st

/-- Loop of `exparseMulDivMod`: a left fold over the multiplicative
operators. -/
def exparseMulDivModLoop :
    Nat → Bool → Bool → khToken → khAstExpression → ParseState →
      khAstExpression × ParseState
  | 0, _, _, _, expression, st => (expression, st)
  | fuel + 1, ignore_newline, filter_type, token, expression, st =>
    match token with
    | .OPERATOR o =>
      match mulDivModOf o with
      | some type_v =>
        let st := skipSt ignore_newline st
        let (right, st) := exparsePow fuel ignore_newline filter_type st
        let expression := khAstExpression.BINARY type_v expression right
        let (token, st) := curTok ignore_newline st
        exparseMulDivModLoop fuel ignore_newline filter_type token expression st
      | none => (expression, st)
    | _ => (expression, st)

/-- Translation of `exparsePow` (parser.c:1686): the `RCD_BINARY` macro
instantiated with `exparseUnary` and the `POW` operator, so the loop
below folds repeated `POW` operators exactly like every other binary
level. -/
def exparsePow :
    Nat → Bool → Bool → ParseState → khAstExpression × ParseState
  | 0, _, _, st => (.INVALID, st)
  | fuel + 1, ignore_newline, filter_type, st =>
    let (_, st) := curTok ignore_newline st
    let (expression, st) := exparseUnary fuel ignore_newline filter_type st
    if filter_type then (expression, st)
    else
      let (token, st) := curTok ignore_newline st
      exparsePowLoop fuel ignore_newline filter_type token expression st

/-- Loop of `exparsePow` (parser.c:1312 via `RCD_BINARY`): while a
`POW` token follows, the accumulated expression becomes the left child
of a new `BINARY` node — a left fold. -/
def exparsePowLoop :
    Nat → Bool → Bool → khToken → khAstExpression → ParseState →
      khAstExpression × ParseState
  | 0, _, _, _, expression, st => (expression, st)
  | fuel + 1, ignore_newline, filter_type, token, expression, st =>
    match token with
    | .OPERATOR .POW =>
      let st := skipSt ignore_newline st
      let (right, st) := exparseUnary fuel ignore_newline filter_type st
      let expression := khAstExpression.BINARY .POW expression right
      let (token, st) := curTok ignore_newline st
      exparsePowLoop fuel ignore_newline filter_type token expression st
    | _ => (expression, st)

/-- Translation of `exparseUnary` (parser.c:1707).  Every prefix
operator case expands `RCD_UNARY_CASE` (parser.c:1692), whose body
ignores both macro arguments: it always recurses through `exparseUnary`
and always builds a `NOT` node. -/
def exparseUnary :
    Nat → Bool → Bool → ParseState → khAstExpression × ParseState
  | 0, _, _, st => (.INVALID, st)
  | fuel + 1, ignore_newline, filter_type, st =>
    if filter_type then exparseReverseUnary fuel ignore_newline filter_type st
    else
      let (token, st) := curTok ignore_newline st
      match token with
      | .OPERATOR o =>
        match o with
        | .ADD | .SUB | .INCREMENT | .DECREMENT | .NOT | .BIT_NOT =>
          let st := skipSt ignore_newline st
          let (expression, st) := exparseUnary fuel ignore_newline filter_type st
          (.UNARY .NOT expression, st)
        | _ => exparseReverseUnary fuel ignore_newline filter_type st
      | _ => exparseReverseUnary fuel ignore_newline filter_type st

/-- Translation of `exparseReverseUnary` (parser.c:1744): postfix
calls, indexing, and the post-increment operators. -/
def exparseReverseUnary :
    Nat → Bool → Bool → ParseState → khAstExpression × ParseState
  | 0, _, _, st => (.INVALID, st)
  | fuel + 1, ignore_newline, filter_type, st =>
    let (_, st) := curTok ignore_newline st
    let (expression, st) := exparseScopeTemplatization fuel ignore_newline filter_type st
    let (token, st) := curTok ignore_newline st
    exparseReverseUnaryLoop fuel ignore_newline filter_type token expression st

/-- Loop of `exparseReverseUnary` (parser.c:1752).  The delimiter
branches continue the loop; the post-increment and post-decrement
branches fall through into the outer default of the C switch, which
leaves the loop after the one postfix operator, and both of them build
a `POST_INCREMENT` node (parser.c:1815 and parser.c:1835). -/
def exparseReverseUnaryLoop :
    Nat → Bool → Bool → khToken → khAstExpression → ParseState →
      khAstExpression × ParseState
  | 0, _, _, _, expression, st => (expression, st)
  | fuel + 1, ignore_newline, filter_type, token, expression, st =>
    match token with
    | .DELIMITER .PARENTHESIS_OPEN =>
      if filter_type then (expression, st)
      else
        let (arguments, st) :=
          exparseList .PARENTHESIS_OPEN .PARENTHESIS_CLOSE fuel
            ignore_newline filter_type st
        let expression := khAstExpression.CALL expression arguments
        let (token, st) := curTok ignore_newline st
        exparseReverseUnaryLoop fuel ignore_newline filter_type token expression st
    | .DELIMITER .SQUARE_BRACKET_OPEN =>
      let (arguments, st) :=
        exparseList .SQUARE_BRACKET_OPEN .SQUARE_BRACKET_CLOSE fuel
          ignore_newline filter_type st
      let expression := khAstExpression.INDEX expression arguments
      let (token, st) := curTok ignore_newline st
      exparseReverseUnaryLoop fuel ignore_newline filter_type token expression st
    | .OPERATOR .INCREMENT =>
      if filter_type then (expression, st)
      else
        let expression := khAstExpression.UNARY .POST_INCREMENT expression
        let st := skipSt ignore_newline st
        let (_, st) := curTok ignore_newline st
        (expression, st)
    | .OPERATOR .DECREMENT =>
      if filter_type then (expression, st)
      else
        let expression := khAstExpression.UNARY .POST_INCREMENT expression
        let st := skipSt ignore_newline st
        let (_, st) := curTok ignore_newline st
        (expression, st)
    | _ => (expression, st)

/-- Translation of `exparseScopeTemplatization` (parser.c:1858). -/
def exparseScopeTemplatization :
    Nat → Bool → Bool → ParseState → khAstExpression × ParseState
  | 0, _, _, st => (.INVALID, st)
  | fuel + 1, ignore_newline, filter_type, st =>
    let (_, st) := curTok ignore_newline st
    let (expression, st) := exparseOther fuel ignore_newline filter_type st
    let (token, st) := curTok ignore_newline st
    exparseScopeTemplatizationLoop fuel ignore_newline filter_type token expression st

/-- Loop of `exparseScopeTemplatization` (parser.c:1866): dots build a
`SCOPE` node, an exclamation mark builds a `TEMPLATIZE` node from one
identifier (left unconsumed, as in the source) or a parenthesised
type-filtered list. -/
def exparseScopeTemplatizationLoop :
    Nat → Bool → Bool → khToken → khAstExpression → ParseState →
      khAstExpression × ParseState
  | 0, _, _, _, expression, st => (expression, st)
  | fuel + 1, ignore_newline, filter_type, token, expression, st =>
    match token with
    | .DELIMITER .DOT =>
      let (scope_names, token, st) :=
        exparseScopeNames ignore_newline (st.cur.length + 1) token [] st
      let expression := khAstExpression.SCOPE expression scope_names
      exparseScopeTemplatizationLoop fuel ignore_newline filter_type token expression st
    | .DELIMITER .EXCLAMATION =>
      let st := skipSt ignore_newline st
      let (token, st) := curTok ignore_newline st
      match token with
      | .IDENTIFIER id =>
        let expression :=
          khAstExpression.TEMPLATIZE expression [.IDENTIFIER id]
        exparseScopeTemplatizationLoop fuel ignore_newline filter_type token
          expression st
      | .DELIMITER .PARENTHESIS_OPEN =>
        let (template_arguments, st) :=
          exparseList .PARENTHESIS_OPEN .PARENTHESIS_CLOSE fuel
            ignore_newline true st
        let expression := khAstExpression.TEMPLATIZE expression template_arguments
        exparseScopeTemplatizationLoop fuel ignore_newline filter_type token
          expression st
      | _ =>
        exparseScopeTemplatizationLoop fuel ignore_newline filter_type token
          expression (raiseError ("expecting a type argument for templatizing") st)
    | _ => (expression, st)

/-- Translation of `exparseOther` (parser.c:1951): the atom level. -/
def exparseOther :
    Nat → Bool → Bool → ParseState → khAstExpression × ParseState
  | 0, _, _, st => (.INVALID, st)
  | fuel + 1, ignore_newline, filter_type, st =>
    let (token, st) := curTok ignore_newline st
    match token with
    | .IDENTIFIER id =>
      let initial := st.cur
      let st := skipSt ignore_newline st
      let (next_token, st) := curTok ignore_newline st
      if ¬filter_type ∧ next_token = khToken.DELIMITER .COLON then
        exparseVariableDeclaration fuel ignore_newline ⟨initial, st.errs⟩
      else
        (.IDENTIFIER id, st)
    | .KEYWORD .DEF =>
      -- look ahead on a cursor copy for the exclamation mark
      let initial := skipToken ignore_newline st.cur
      let (next_token, _) := currentToken ignore_newline initial
      if next_token = khToken.DELIMITER .EXCLAMATION then
        exparseFunctionType fuel ignore_newline st
      else
        let st :=
          if filter_type then raiseError ("expecting a type, not a lambda") st else st
        exparseLambda fuel ignore_newline st
    | .KEYWORD .STATIC | .KEYWORD .WILD | .KEYWORD .REF =>
      let st :=
        if filter_type then
          raiseError ("expecting a type, not a variable declaration") st
        else st
      exparseVariableDeclaration fuel ignore_newline st
    | .KEYWORD _ =>
      let st := raiseError ("unexpected delimiter in an expression") st
      let st := skipSt ignore_newline st
      (.INVALID, st)
    | .DELIMITER .PARENTHESIS_OPEN =>
      let (values, st) :=
        exparseList .PARENTHESIS_OPEN .PARENTHESIS_CLOSE fuel
          ignore_newline filter_type st
      match values with
      | [v] => (v, st)
      | _ => (.TUPLE values, st)
    | .DELIMITER .SQUARE_BRACKET_OPEN =>
      let st :=
        if filter_type then raiseError ("expecting a type, not an array") st else st
      let (values, st) :=
        exparseList .SQUARE_BRACKET_OPEN .SQUARE_BRACKET_CLOSE fuel
          ignore_newline filter_type st
      (.ARRAY values, st)
    | .DELIMITER .CURLY_BRACKET_OPEN =>
      let st :=
        if filter_type then raiseError ("expecting a type, not a dict") st else st
      exparseDict fuel ignore_newline st
    | .DELIMITER _ =>
      let st := raiseError ("unexpected token in an expression") st
      let st := skipSt ignore_newline st
      (.INVALID, st)
    | .CHAR c =>
      let st :=
        if filter_type then raiseError ("expecting a type, not a character") st else st
      let st := skipSt ignore_newline st
      (.CHAR c, st)
    | .STRING s =>
      let st :=
        if filter_type then raiseError ("expecting a type, not a string") st else st
      let st := skipSt ignore_newline st
      (.STRING s, st)
    | .BUFFER b =>
      let st :=
        if filter_type then raiseError ("expecting a type, not a buffer") st else st
      let st := skipSt ignore_newline st
      (.BUFFER b, st)
    | .BYTE b =>
      let st :=
        if filter_type then raiseError ("expecting a type, not a byte") st else st
      let st := skipSt ignore_newline st
      (.BYTE b, st)
    | .INTEGER n =>
      -- integers pass even in type-filter mode, for static array sizes
      let st := skipSt ignore_newline st
      (.INTEGER n, st)
    | .UINTEGER n =>
      let st := skipSt ignore_newline st
      (.UINTEGER n, st)
    | .FLOAT v =>
      let st :=
        if filter_type then
          raiseError ("expecting a type, not a floating-point number") st
        else st
      let st := skipSt ignore_newline st
      (.FLOAT v, st)
    | .DOUBLE v =>
      let st :=
        if filter_type then
          raiseError ("expecting a type, not a double floating-point number") st
        else st
      let st := skipSt ignore_newline st
      (.DOUBLE v, st)
    | .IFLOAT v =>
      let st :=
        if filter_type then
          raiseError ("expecting a type, not an imaginary floating-point number") st
        else st
      let st := skipSt ignore_newline st
      (.IFLOAT v, st)
    | .IDOUBLE v =>
      let st :=
        if filter_type then
          raiseError ("expecting a type, not an imaginary double floating-point number") st
        else st
      let st := skipSt ignore_newline st
      (.IDOUBLE v, st)
    | _ =>
      let st := raiseError ("unexpected token in an expression") st
      let st := skipSt ignore_newline st
      (.INVALID, st)

/-- Translation of `exparseVariableDeclaration` (parser.c:2208). -/
def exparseVariableDeclaration :
    Nat → Bool → ParseState → khAstExpression × ParseState
  | 0, _, st => (.INVALID, st)
  | fuel + 1, ignore_newline, st =>
    let (_, st) := curTok ignore_newline st
    let (_, is_static, st) := sparseSpecifiers false true ignore_newline st
    let (token, st) := curTok ignore_newline st
    let (is_wild, token, st) :=
      match token with
      | .KEYWORD .WILD =>
        let st := skipSt ignore_newline st
        let (token, st) := curTok ignore_newline st
        (true, token, st)
      | _ => (false, token, st)
    let (is_ref, token, st) :=
      match token with
      | .KEYWORD .REF =>
        let st := skipSt ignore_newline st
        let (token, st) := curTok ignore_newline st
        (true, token, st)
      | _ => (false, token, st)
    let (name, token, st) :=
      match token with
      | .IDENTIFIER id =>
        let st := skipSt ignore_newline st
        let (token, st) := curTok ignore_newline st
        (id, token, st)
      | _ =>
        ("", token,
          raiseError ("expecting a name for the variable in the declaration") st)
    let (token, st) :=
      match token with
      | .DELIMITER .COLON =>
        let st := skipSt ignore_newline st
        curTok ignore_newline st
      | _ =>
        (token,
          raiseError ("expecting a colon to separate the name and the type of the variable") st)
    let (optional_type, token, st) :=
      if ¬(token = khToken.OPERATOR .ASSIGN) then
        let (type_v, st) := exparseInplaceOperators fuel ignore_newline true st
        let (token, st) := curTok ignore_newline st
        (some type_v, token, st)
      else (none, token, st)
    let (optional_initializer, st) :=
      if token = khToken.OPERATOR .ASSIGN then
        let st := skipSt ignore_newline st
        let (value, st) := exparseInplaceOperators fuel ignore_newline false st
        (some value, st)
      else (none, st)
    (.VARIABLE_DECLARATION is_static is_wild is_ref name optional_type
      optional_initializer, st)

/-- Argument loop of `exparseFunctionType` (parser.c:2329). -/
def exparseFunctionTypeArgs :
    Nat → khToken → List Bool → List khAstExpression → ParseState →
      List Bool × List khAstExpression × ParseState
  | 0, _, are_refs, types, st => (are_refs, types, st)
  | fuel + 1, token, are_refs, types, st =>
    let (are_refs, st) :=
      match token with
      | .KEYWORD .REF => (are_refs ++ [true], skipSt true st)
      | _ => (are_refs ++ [false], st)
    let (type_v, st) := exparseInplaceOperators fuel true true st
    let types := types ++ [type_v]
    let (token, st) := curTok true st
    match token with
    | .DELIMITER .COMMA =>
      let st := skipSt true st
      let (token, st) := curTok true st
      exparseFunctionTypeArgs fuel token are_refs types st
    | .DELIMITER .PARENTHESIS_CLOSE =>
      (are_refs, types, skipSt true st)
    | _ =>
      (are_refs, types,
        raiseError ("expecting a comma or another argument type after an argument type") st)

/-- Translation of `exparseFunctionType` (parser.c:2284).  The
instant-close check compares against the closing curly bracket, as the
source does. -/
def exparseFunctionType :
    Nat → Bool → ParseState → khAstExpression × ParseState
  | 0, _, st => (.INVALID, st)
  | fuel + 1, ignore_newline, st =>
    let (token, st) := curTok ignore_newline st
    let (token, st) :=
      match token with
      | .KEYWORD .DEF =>
        let st := skipSt ignore_newline st
        curTok ignore_newline st
      | _ => (token, raiseError ("expecting a `def` keyword") st)
    let (token, st) :=
      match token with
      | .DELIMITER .EXCLAMATION =>
        let st := skipSt ignore_newline st
        curTok ignore_newline st
      | _ => (token, raiseError ("expecting an exclamation mark") st)
    let (token, st) :=
      match token with
      | .DELIMITER .PARENTHESIS_OPEN =>
        let st := skipSt true st
        curTok true st
      | _ => (token, raiseError ("expecting an opening parenthesis") st)
    let (are_arguments_refs, argument_types, st) :=
      match token with
      | .DELIMITER .CURLY_BRACKET_CLOSE => ([], [], skipSt true st)
      | _ => exparseFunctionTypeArgs fuel token [] [] st
    let (token, st) := curTok ignore_newline st
    let (is_return_type_ref, optional_return_type, st) :=
      match token with
      | .DELIMITER .ARROW =>
        let st := skipSt ignore_newline st
        let (token, st) := curTok ignore_newline st
        let (is_ref, st) :=
          match token with
          | .KEYWORD .REF => (true, skipSt ignore_newline st)
          | _ => (false, st)
        let (ret, st) := exparseInplaceOperators fuel ignore_newline true st
        (is_ref, some ret, st)
      | _ => (false, none, st)
    (.FUNCTION_TYPE are_arguments_refs argument_types is_return_type_ref
      optional_return_type, st)

/-- Translation of `exparseLambda` (parser.c:2390). -/
def exparseLambda :
    Nat → Bool → ParseState → khAstExpression × ParseState
  | 0, _, st => (.INVALID, st)
  | fuel + 1, ignore_newline, st =>
    let (token, st) := curTok ignore_newline st
    let st :=
      match token with
      | .KEYWORD .DEF => skipSt ignore_newline st
      | _ => raiseError ("expecting a `def` keyword") st
    let (arguments, optional_variadic_argument, is_return_type_ref,
        optional_return_type, content, st) := sparseFunctionOrLambda fuel st
    (.LAMBDA arguments optional_variadic_argument is_return_type_ref
      optional_return_type content, st)

/-- Pair loop of `exparseDict` (parser.c:2438). -/
def exparseDictLoop :
    Nat → List khAstExpression → List khAstExpression → ParseState →
      List khAstExpression × List khAstExpression × ParseState
  | 0, keys, values, st => (keys, values, st)
  | fuel + 1, keys, values, st =>
    let (key, st) := exparseInplaceOperators fuel true false st
    let keys := keys ++ [key]
    let (token, st) := curTok true st
    let st :=
      match token with
      | .DELIMITER .COLON => skipSt true st
      | _ => raiseError ("expecting a colon after the key for its value pair") st
    let (value, st) := exparseInplaceOperators fuel true false st
    let values := values ++ [value]
    let (token, st) := curTok true st
    match token with
    | .DELIMITER .COMMA =>
      let st := skipSt true st
      let (_, st) := curTok true st
      exparseDictLoop fuel keys values st
    | .DELIMITER .CURLY_BRACKET_CLOSE =>
      (keys, values, skipSt true st)
    | _ =>
      (keys, values,
        raiseError ("expecting a comma with another pair of key and value or a closing delimiter") st)

/-- Translation of `exparseDict` (parser.c:2416). -/
def exparseDict :
    Nat → Bool → ParseState → khAstExpression × ParseState
  | 0, _, st => (.INVALID, st)
  | fuel + 1, ignore_newline, st =>
    let (token, st) := curTok ignore_newline st
    let (token, st) :=
      match token with
      | .DELIMITER .CURLY_BRACKET_OPEN =>
        let st := skipSt true st
        curTok true st
      | _ => (token, raiseError ("expecting an opening curly bracket") st)
    match token with
    | .DELIMITER .CURLY_BRACKET_CLOSE => (.DICT [] [], skipSt true st)
    | _ =>
      let (keys, values, st) := exparseDictLoop fuel [] [] st
      (.DICT keys values, st)

/-- Element loop of `exparseList` (parser.c:2505). -/
def exparseListLoop (closing_delimiter : khDelimiterToken) (filter_type : Bool) :
    Nat → List khAstExpression → ParseState → List khAstExpression × ParseState
  | 0, expressions, st => (expressions, st)
  | fuel + 1, expressions, st =>
    let (expression, st) := exparseInplaceOperators fuel true filter_type st
    let expressions := expressions ++ [expression]
    let (token, st) := curTok true st
    match token with
    | .DELIMITER d =>
      if d = khDelimiterToken.COMMA then
        let st := skipSt true st
        let (_, st) := curTok true st
        exparseListLoop closing_delimiter filter_type fuel expressions st
      else if d = closing_delimiter then
        (expressions, skipSt true st)
      else
        (expressions,
          raiseError ("expecting a comma with another element or a closing delimiter") st)
    | _ =>
      (expressions,
        raiseError ("expecting a comma with another element or a closing delimiter") st)

/-- Translation of `exparseList` (parser.c:2485): a delimited,
comma-separated, newline-insensitive expression list. -/
def exparseList (opening_delimiter closing_delimiter : khDelimiterToken) :
    Nat → Bool → Bool → ParseState → List khAstExpression × ParseState
  | 0, _, _, st => ([], st)
  | fuel + 1, ignore_newline, filter_type, st =>
    let (token, st) := curTok ignore_newline st
    let (token, st) :=
      if token = khToken.DELIMITER opening_delimiter then
        let st := skipSt true st
        curTok true st
      else
        (token, raiseError ("expecting an opening delimiter") st)
    if token = khToken.DELIMITER closing_delimiter then
      ([], skipSt true st)
    else
      exparseListLoop closing_delimiter filter_type fuel [] st

/-- Translation of `sparseStatement` (parser.c:141): the statement
dispatch.  The specialised payload structs that the C helpers return
are collapsed into the `khAst` node each branch wraps them in. -/
def sparseStatement :
    Nat → ParseState → khAst × ParseState
  | 0, st => (.INVALID, st)
  | fuel + 1, st =>
    let (token, st) := curTok true st
    match token with
    | .KEYWORD kw =>
      match kw with
      | .IMPORT => sparseImport st
      | .INCLUDE => sparseInclude st
      | .AS => (.INVALID, raiseError ("unexpected keyword") st)
      | .DEF => sparseFunction fuel st
      | .CLASS => sparseClass fuel st
      | .STRUCT => sparseStruct fuel st
      | .ENUM => sparseEnum st
      | .ALIAS => sparseAlias fuel st
      | .WILD | .REF => sparseStatementOut fuel st
      | .INCASE | .STATIC =>
        -- look ahead past the specifiers, then rewind the cursor
        let previous := st.cur
        let (_, _, st1) := sparseSpecifiers true true true st
        let (token2, _) := currentToken true st1.cur
        let st2 : ParseState := ⟨previous, st1.errs⟩
        match token2 with
        | .KEYWORD .DEF => sparseFunction fuel st2
        | .KEYWORD .CLASS => sparseClass fuel st2
        | .KEYWORD .STRUCT => sparseStruct fuel st2
        | .KEYWORD .ALIAS => sparseAlias fuel st2
        | _ => sparseStatementOut fuel st2
      | .IF => sparseIfBranch fuel st
      | .ELIF =>
        (.INVALID, raiseError ("no following if statement to have an elif statement") st)
      | .ELSE =>
        (.INVALID, raiseError ("no following if statement to have an else statement") st)
      | .FOR => sparseForLoop fuel st
      | .WHILE => sparseWhileLoop fuel st
      | .DO => sparseDoWhileLoop fuel st
      | .BREAK => (.BREAK, sparseBreak st)
      | .CONTINUE => (.CONTINUE, sparseContinue st)
      | .RETURN =>
        let (values, st) := sparseReturn fuel st
        (.RETURN values, st)
      | _ => sparseStatementOut fuel st
    | .EOF => (.INVALID, raiseError ("expecting a statement, met with a dead end") st)
    | _ => sparseStatementOut fuel st

/-- Expression-statement tail of `sparseStatement` (parser.c:357, the
`out` label): parse an expression and require a statement terminator,
skipping one token on failure for forward progress. -/
def sparseStatementOut :
    Nat → ParseState → khAst × ParseState
  | 0, st => (.INVALID, st)
  | fuel + 1, st =>
    let (expression, st) := exparseInplaceOperators fuel false false st
    let (token, st) := curTok false st
    match token with
    | .EOF | .NEWLINE | .DELIMITER .SEMICOLON =>
      (.EXPRESSION expression, skipSt false st)
    | .DELIMITER .CURLY_BRACKET_CLOSE =>
      (.EXPRESSION expression, st)
    | _ =>
      let st := skipSt false st
      (.EXPRESSION expression, raiseError ("expecting a newline or a semicolon") st)

/-- Statement loop of `sparseBlock` (parser.c:402): statements until
the closing curly bracket, stopping early at the end of the input. -/
def sparseBlockLoop :
    Nat → khToken → ParseState → List khAst × ParseState
  | 0, _, st => ([], st)
  | fuel + 1, token, st =>
    match token with
    | .DELIMITER .CURLY_BRACKET_CLOSE => ([], skipSt true st)
    | .EOF => ([], raiseError ("expecting a statement, met with a dead end") st)
    | _ =>
      let (ast, st) := sparseStatement fuel st
      let (token, st) := curTok true st
      let (block, st) := sparseBlockLoop fuel token st
      (ast :: block, st)

/-- Translation of `sparseBlock` (parser.c:387). -/
def sparseBlock :
    Nat → ParseState → List khAst × ParseState
  | 0, st => ([], st)
  | fuel + 1, st =>
    let (token, st) := curTok true st
    let (token, st) :=
      match token with
      | .DELIMITER .CURLY_BRACKET_OPEN =>
        let st := skipSt true st
        curTok true st
      | _ => (token, raiseError ("expecting an opening curly bracket") st)
    sparseBlockLoop fuel token st

/-- Argument loop of `sparseFunctionOrLambda` (parser.c:641). -/
def sparseFunctionOrLambdaArgs :
    Nat → khToken → List khAstExpression → Option khAstExpression → ParseState →
      List khAstExpression × Option khAstExpression × ParseState
  | 0, _, arguments, variadic, st => (arguments, variadic, st)
  | fuel + 1, token, arguments, variadic, st =>
    match token with
    | .DELIMITER .PARENTHESIS_CLOSE => (arguments, variadic, st)
    | .DELIMITER .ELLIPSIS =>
      let st := skipSt true st
      let (vd, st) := exparseVariableDeclaration fuel true st
      let (token, st) := curTok true st
      let st :=
        match token with
        | .DELIMITER .PARENTHESIS_CLOSE => st
        | _ => raiseError ("expecting a closing parenthesis after the variadic argument") st
      (arguments, some vd, st)
    | .EOF =>
      (arguments, variadic,
        raiseError ("expecting a comma with another argument or a closing parenthesis, met with a dead end") st)
    | _ =>
      let (vd, st) := exparseVariableDeclaration fuel true st
      let arguments := arguments ++ [vd]
      let (token, st) := curTok true st
      match token with
      | .DELIMITER .COMMA =>
        let st := skipSt true st
        let (token, st) := curTok true st
        sparseFunctionOrLambdaArgs fuel token arguments variadic st
      | .DELIMITER .PARENTHESIS_CLOSE =>
        sparseFunctionOrLambdaArgs fuel token arguments variadic st
      | .EOF =>
        (arguments, variadic,
          raiseError ("expecting a comma with another argument or a closing parenthesis, met with a dead end") st)
      | _ =>
        let st :=
          raiseError ("expecting a comma with another argument or a closing parenthesis") st
        let st := skipSt true st
        let (token, st) := curTok true st
        sparseFunctionOrLambdaArgs fuel token arguments variadic st

/-- Translation of `sparseFunctionOrLambda` (parser.c:624): argument
list, optional arrow return type, and the block body. -/
def sparseFunctionOrLambda :
    Nat → ParseState →
      List khAstExpression × Option khAstExpression × Bool ×
        Option khAstExpression × List khAst × ParseState
  | 0, st => ([], none, false, none, [], st)
  | fuel + 1, st =>
    let (token, st) := curTok false st
    let (token, st) :=
      match token with
      | .DELIMITER .PARENTHESIS_OPEN =>
        let st := skipSt true st
        curTok true st
      | _ =>
        (token, raiseError ("expecting an opening parenthesis for the arguments") st)
    let (arguments, optional_variadic_argument, st) :=
      sparseFunctionOrLambdaArgs fuel token [] none st
    let st := skipSt true st
    let (token, st) := curTok true st
    let (is_return_type_ref, optional_return_type, st) :=
      match token with
      | .DELIMITER .ARROW =>
        let st := skipSt true st
        let (token, st) := curTok true st
        let (is_ref, st) :=
          match token with
          | .KEYWORD .REF => (true, skipSt true st)
          | _ => (false, st)
        let (ret, st) := exparseInplaceOperators fuel true true st
        let (_, st) := curTok true st
        (is_ref, some ret, st)
      | _ => (false, none, st)
    let (content, st) := sparseBlock fuel st
    (arguments, optional_variadic_argument, is_return_type_ref,
      optional_return_type, content, st)

/-- Translation of `sparseFunction` (parser.c:721).  The `def` keyword
is compared against the token captured before `sparseSpecifiers`, as in
the source. -/
def sparseFunction :
    Nat → ParseState → khAst × ParseState
  | 0, st => (.INVALID, st)
  | fuel + 1, st =>
    let (token, st) := curTok true st
    let (is_incase, is_static, st) := sparseSpecifiers true true true st
    let st :=
      match token with
      | .KEYWORD .DEF => skipSt false st
      | _ => raiseError ("expecting a `def` keyword") st
    let (name_point, st) := exparseInplaceOperators fuel false true st
    let (arguments, optional_variadic_argument, is_return_type_ref,
        optional_return_type, content, st) := sparseFunctionOrLambda fuel st
    (.FUNCTION is_incase is_static name_point arguments optional_variadic_argument
      is_return_type_ref optional_return_type content, st)

/-- Translation of `sparseClassOrStruct` (parser.c:752): name, optional
template arguments, optional base type, and the body block. -/
def sparseClassOrStruct :
    Nat → ParseState →
      String × List String × Option khAstExpression × List khAst × ParseState
  | 0, st => ("", [], none, [], st)
  | fuel + 1, st =>
    let (token, st) := curTok false st
    let (name, token, st) :=
      match token with
      | .IDENTIFIER id =>
        let st := skipSt false st
        let (token, st) := curTok false st
        (id, token, st)
      | _ => ("", token, raiseError ("expecting a name for the type") st)
    let (template_arguments, token, st) :=
      match token with
      | .DELIMITER .EXCLAMATION =>
        let st := skipSt false st
        let (token, st) := curTok false st
        match token with
        | .IDENTIFIER id =>
          let st := skipSt false st
          let (token, st) := curTok false st
          ([id], token, st)
        | .DELIMITER .PARENTHESIS_OPEN =>
          let (args, token, st) := sparseTemplateArgs (st.cur.length + 1) [] st
          match token with
          | .DELIMITER .PARENTHESIS_CLOSE =>
            let st := skipSt false st
            let (token, st) := curTok false st
            (args, token, st)
          | _ => (args, token, raiseError ("expecting a closing parenthesis") st)
        | _ => ([], token, raiseError ("expecting template argument(s)") st)
      | _ => ([], token, st)
    let (optional_base_type, st) :=
      match token with
      | .DELIMITER .PARENTHESIS_OPEN =>
        let st := skipSt true st
        let (base, st) := exparseInplaceOperators fuel true true st
        let (token, st) := curTok true st
        let st :=
          match token with
          | .DELIMITER .PARENTHESIS_CLOSE => skipSt true st
          | _ => raiseError ("expecting a closing parenthesis") st
        (some base, st)
      | _ => (none, st)
    let (content, st) := sparseBlock fuel st
    (name, template_arguments, optional_base_type, content, st)

/-- Translation of `sparseClass` (parser.c:841), with the stale-token
keyword check of the source. -/
def sparseClass :
    Nat → ParseState → khAst × ParseState
  | 0, st => (.INVALID, st)
  | fuel + 1, st =>
    let (token, st) := curTok true st
    let (is_incase, _, st) := sparseSpecifiers true false true st
    let st :=
      match token with
      | .KEYWORD .CLASS => skipSt false st
      | _ => raiseError ("expecting a `class` keyword") st
    let (name, template_arguments, optional_base_type, content, st) :=
      sparseClassOrStruct fuel st
    (.CLASS is_incase name template_arguments optional_base_type content, st)

/-- Translation of `sparseStruct` (parser.c:868). -/
def sparseStruct :
    Nat → ParseState → khAst × ParseState
  | 0, st => (.INVALID, st)
  | fuel + 1, st =>
    let (token, st) := curTok true st
    let (is_incase, _, st) := sparseSpecifiers true false true st
    let st :=
      match token with
      | .KEYWORD .STRUCT => skipSt false st
      | _ => raiseError ("expecting a `struct` keyword") st
    let (name, template_arguments, optional_base_type, content, st) :=
      sparseClassOrStruct fuel st
    (.STRUCT is_incase name template_arguments optional_base_type content, st)

/-- Translation of `sparseAlias` (parser.c:961). -/
def sparseAlias :
    Nat → ParseState → khAst × ParseState
  | 0, st => (.INVALID, st)
  | fuel + 1, st =>
    let (token, st) := curTok true st
    let (is_incase, _, st) := sparseSpecifiers true false true st
    let (token, st) :=
      match token with
      | .KEYWORD .ALIAS =>
        let st := skipSt false st
        curTok false st
      | _ => (token, raiseError ("expecting an `alias` keyword") st)
    let (name, st) :=
      match token with
      | .IDENTIFIER id =>
        let st := skipSt true st
        let (_, st) := curTok true st
        (id, st)
      | _ => ("", raiseError ("expecting a name for the alias") st)
    let (expression, st) := exparseInplaceOperators fuel false false st
    let (token, st) := curTok true st
    let st := sparseTerminator token st
    (.ALIAS is_incase name expression, st)

/-- Branch loop of `sparseIfBranch` (parser.c:1033): a condition and a
block, repeated while an `elif` keyword follows. -/
def sparseIfBranchLoop :
    Nat → List khAstExpression → List (List khAst) → ParseState →
      List khAstExpression × List (List khAst) × khToken × ParseState
  | 0, conditions, contents, st => (conditions, contents, (currentToken true st.cur).1, st)
  | fuel + 1, conditions, contents, st =>
    let (condition, st) := exparseInplaceOperators fuel false false st
    let (content, st) := sparseBlock fuel st
    let conditions := conditions ++ [condition]
    let contents := contents ++ [content]
    let (token, st) := curTok true st
    match token with
    | .KEYWORD .ELIF =>
      let st := skipSt true st
      sparseIfBranchLoop fuel conditions contents st
    | _ => (conditions, contents, token, st)

/-- Translation of `sparseIfBranch` (parser.c:1015). -/
def sparseIfBranch :
    Nat → ParseState → khAst × ParseState
  | 0, st => (.INVALID, st)
  | fuel + 1, st =>
    let (token, st) := curTok true st
    let st :=
      match token with
      | .KEYWORD .IF =>
        let st := skipSt true st
        let (_, st) := curTok false st
        st
      | _ => raiseError ("expecting an `if` keyword") st
    let (branch_conditions, branch_contents, token, st) :=
      sparseIfBranchLoop fuel [] [] st
    let (else_content, st) :=
      match token with
      | .KEYWORD .ELSE =>
        let st := skipSt true st
        sparseBlock fuel st
      | _ => ([], st)
    (.IF_BRANCH branch_conditions branch_contents else_content, st)

/-- Translation of `sparseWhileLoop` (parser.c:1056). -/
def sparseWhileLoop :
    Nat → ParseState → khAst × ParseState
  | 0, st => (.INVALID, st)
  | fuel + 1, st =>
    let (token, st) := curTok true st
    let st :=
      match token with
      | .KEYWORD .WHILE => skipSt true st
      | _ => raiseError ("expecting a `while` keyword") st
    let (condition, st) := exparseInplaceOperators fuel false false st
    let (content, st) := sparseBlock fuel st
    (.WHILE_LOOP condition content, st)

/-- Translation of `sparseDoWhileLoop` (parser.c:1078). -/
def sparseDoWhileLoop :
    Nat → ParseState → khAst × ParseState
  | 0, st => (.INVALID, st)
  | fuel + 1, st =>
    let (token, st) := curTok true st
    let st :=
      match token with
      | .KEYWORD .DO => skipSt true st
      | _ => raiseError ("expecting a `do` keyword") st
    let (content, st) := sparseBlock fuel st
    let (token, st) := curTok true st
    let st :=
      match token with
      | .KEYWORD .WHILE => skipSt true st
      | _ => raiseError ("expecting a `while` keyword") st
    let (condition, st) := exparseInplaceOperators fuel false false st
    let (token, st) := curTok true st
    let st := sparseTerminator token st
    (.DO_WHILE_LOOP condition content, st)

/-- Control-expression loop of `sparseForLoop` (parser.c:1144): one
expression, then more while commas follow. -/
def sparseForLoopExprs :
    Nat → List khAstExpression → ParseState →
      List khAstExpression × khToken × ParseState
  | 0, expressions, st => (expressions, (currentToken true st.cur).1, st)
  | fuel + 1, expressions, st =>
    let (expression, st) := exparseInplaceOperators fuel false false st
    let expressions := expressions ++ [expression]
    let (token, st) := curTok true st
    match token with
    | .DELIMITER .COMMA =>
      let st := skipSt true st
      sparseForLoopExprs fuel expressions st
    | _ => (expressions, token, st)

/-- Translation of `sparseForLoop` (parser.c:1129): a for-each loop
when an `in` keyword follows the expressions, a classical loop when
exactly three were read, and an invalid statement otherwise. -/
def sparseForLoop :
    Nat → ParseState → khAst × ParseState
  | 0, st => (.INVALID, st)
  | fuel + 1, st =>
    let (token, st) := curTok true st
    let st :=
      match token with
      | .KEYWORD .FOR => skipSt true st
      | _ => raiseError ("expecting a `for` keyword") st
    let (expressions, token, st) := sparseForLoopExprs fuel [] st
    match token with
    | .KEYWORD .IN =>
      let st := skipSt true st
      let (iteratee, st) := exparseInplaceOperators fuel false false st
      let (content, st) := sparseBlock fuel st
      (.FOR_EACH_LOOP expressions iteratee content, st)
    | _ =>
      match expressions with
      | [e0, e1, e2] =>
        let (content, st) := sparseBlock fuel st
        (.FOR_LOOP e0 e1 e2 content, st)
      | _ =>
        (.INVALID, raiseError ("too many arguments for a non-for-each for loop") st)

/-- Value loop of `sparseReturn` (parser.c:1271): one expression, then
more while commas follow. -/
def sparseReturnLoop :
    Nat → List khAstExpression → ParseState →
      List khAstExpression × khToken × ParseState
  | 0, values, st => (values, (currentToken true st.cur).1, st)
  | fuel + 1, values, st =>
    let (value, st) := exparseInplaceOperators fuel false false st
    let values := values ++ [value]
    let (token, st) := curTok true st
    match token with
    | .DELIMITER .COMMA =>
      let st := skipSt true st
      sparseReturnLoop fuel values st
    | _ => (values, token, st)

/-- Translation of `sparseReturn` (parser.c:1245), returning the
`khAstReturn` value list.  The token after the `return` keyword is read
with `currentToken(cursor, true)`, so newline tokens are skipped before
the early-exit check below ever sees them. -/
def sparseReturn :
    Nat → ParseState → List khAstExpression × ParseState
  | 0, st => ([], st)
  | fuel + 1, st =>
    let (token, st) := curTok true st
    let (token, st) :=
      match token with
      | .KEYWORD .RETURN =>
        let st := skipSt true st
        curTok true st
      | _ => (token, raiseError ("expecting a `return` keyword") st)
    match token with
    | .NEWLINE | .EOF | .DELIMITER .SEMICOLON =>
      ([], skipSt false st)
    | _ =>
      let (values, token, st) := sparseReturnLoop fuel [] st
      let st := sparseTerminator token st
      (values, st)

end

/-- Translation of `kh_parseAst` (parser.c:133). -/
def kh_parseAst (fuel : Nat) (st : ParseState) : khAst × ParseState :=
  sparseStatement fuel st

/-- Translation of `kh_parseExpression` (parser.c:137): the entry of
the precedence ladder. -/
def kh_parseExpression (fuel : Nat) (ignore_newline filter_type : Bool)
    (st : ParseState) : khAstExpression × ParseState :=
  exparseInplaceOperators fuel ignore_newline filter_type st

/-- Translation of `kh_parse` (parser.c:73): statements until the end
of the input. -/
def kh_parse : Nat → ParseState → List khAst × ParseState
  | 0, st => ([], st)
  | fuel + 1, st =>
    if isEnd st.cur then ([], st)
    else
      let (ast, st) := sparseStatement fuel st
      let (asts, st) := kh_parse fuel st
      (ast :: asts, st)

end KhParser

/-! ## Auxiliary definitions for the statements below -/

/-- Mathematical value of the maximal digit run at the front of the
buffer in the given base, above the seed accumulator: the value the
spec calls the mathematical value of the integer literal, with no
64-bit wrap. -/
def khDigitsVal (base : Nat) : List Nat → Nat → Nat
  | [], r => r
  | c :: rest, r =>
    if digitOf c < base then khDigitsVal base rest (r * base + digitOf c) else r

/-- Tokens of the float family of the old-generation lexer: the four
results of the float reparse path of `kh_lexNumber`. -/
def khIsFloatToken : khToken → Bool
  | .FLOAT _ => true
  | .DOUBLE _ => true
  | .IFLOAT _ => true
  | .IDOUBLE _ => true
  | _ => false

namespace KhParser

/-- Count invariant of a comparison node: the operand list is one
longer than the operation list, which is nonempty. -/
def khComparisonCountOK : khAstExpression → Prop
  | .COMPARISON operations operands =>
    operands.length = operations.length + 1 ∧ 1 ≤ operations.length
  | _ => False

end KhParser

/-! ## Lexer lemmas and claim theorems -/

/-- Helper for C2: the string-body loop of `kh_lexString` never
returns on a raw line feed in non-multiline mode, whatever the fuel:
the offending unit is neither consumed nor escaped from. -/
theorem kh_lexStringLoop_newline_none : ∀ (fuel : Nat) (errors : List String),
    kh_lexStringLoop false false fuel [] [10] errors = none := by
  intro fuel
  induction fuel with
  | zero => intro errors; rfl
  | succ n ih => intro errors; exact ih _

/-- Helper for C6: the Horner value of a digit run only grows from its
seed accumulator. -/
theorem khDigitsVal_seed_le (base : Nat) (hb : 1 ≤ base) :
    ∀ (cur : List Nat) (r : Nat), r ≤ khDigitsVal base cur r := by
  intro cur
  induction cur with
  | nil => intro r; exact Nat.le_refl r
  | cons c rest ih =>
    intro r
    simp only [khDigitsVal]
    split
    · exact le_trans (le_trans (Nat.le_mul_of_pos_right r hb) (Nat.le_add_right _ _)) (ih _)
    · exact Nat.le_refl r

/-- Helper for C6: while the running value stays below 2^64, the
accumulator of `kh_lexInt` computes the exact Horner value and the
overflow flag stays clear. -/
theorem kh_lexIntLoop_exact (base : Nat) (hb : 1 ≤ base) :
    ∀ (cur : List Nat) (r maxLen : Nat), khDigitsVal base cur r < 2 ^ 64 →
      cur.length ≤ maxLen →
      (kh_lexIntLoop base cur maxLen r false).1 = khDigitsVal base cur r ∧
      (kh_lexIntLoop base cur maxLen r false).2.1 = false := by
  intro cur
  induction cur with
  | nil => intro r maxLen _ _; exact ⟨rfl, rfl⟩
  | cons c rest ih =>
    intro r maxLen h hl
    by_cases hd : digitOf c < base
    · have hml : 0 < maxLen := lt_of_lt_of_le (Nat.succ_pos _) hl
      rw [khDigitsVal, if_pos hd] at h ⊢
      have hfit : r * base + digitOf c < 2 ^ 64 :=
        lt_of_le_of_lt (khDigitsVal_seed_le base hb rest _) h
      have hr : r ≤ r * base := Nat.le_mul_of_pos_right r hb
      have hmod : (r * base + digitOf c) % 2 ^ 64 = r * base + digitOf c :=
        Nat.mod_eq_of_lt hfit
      have hnolt : ¬ (r * base + digitOf c < r) := by omega
      simp only [kh_lexIntLoop, if_pos (And.intro hd hml), hmod]
      rw [if_neg hnolt]
      exact ih _ _ h (by simp at hl; omega)
    · rw [khDigitsVal, if_neg hd]
      simp only [kh_lexIntLoop]
      rw [if_neg (fun hh => hd hh.1)]
      exact ⟨rfl, rfl⟩

/-- Helper for C6: the cursor left by the integer loop is never longer
than the cursor it started from. -/
theorem kh_lexIntLoop_len_le (base : Nat) :
    ∀ (cur : List Nat) (maxLen r : Nat) (ov : Bool),
      (kh_lexIntLoop base cur maxLen r ov).2.2.length ≤ cur.length := by
  intro cur
  induction cur with
  | nil => intro maxLen r ov; exact Nat.le_refl _
  | cons c rest ih =>
    intro maxLen r ov
    simp only [kh_lexIntLoop]
    split
    · exact le_trans (ih _ _ _) (by simp)
    · exact Nat.le_refl _

/-- Helper for C6: when the integer loop consumes no digit at all, the
overflow flag it returns is still clear. -/
theorem kh_lexIntLoop_noconsume_flag (base : Nat) :
    ∀ (cur : List Nat) (maxLen r : Nat),
      (kh_lexIntLoop base cur maxLen r false).2.2.length = cur.length →
      (kh_lexIntLoop base cur maxLen r false).2.1 = false := by
  intro cur maxLen r h
  cases cur with
  | nil => rfl
  | cons c rest =>
    by_cases hc : digitOf c < base ∧ 0 < maxLen
    · exfalso
      simp only [kh_lexIntLoop, if_pos hc] at h
      have hle := kh_lexIntLoop_len_le base rest (maxLen - 1)
        ((r * base + digitOf c) % 2 ^ 64)
        (if (r * base + digitOf c) % 2 ^ 64 < r then true else false)
      simp only [List.length_cons] at h
      omega
    · simp only [kh_lexIntLoop, if_neg hc]

/-- Helper for C6: every token the float-suffix switch of
`kh_lexNumber` builds belongs to the float family. -/
theorem kh_lexNumberFloatSuffix_isFloat :
    ∀ (floating : CDouble) (cur : List Nat),
      khIsFloatToken (kh_lexNumberFloatSuffix floating cur).1 = true := by
  intro floating cur
  simp only [kh_lexNumberFloatSuffix]
  split <;> first
  | rfl
  | (split <;> rfl)

/-- Claim C1: the spec says a line break yields a NEWLINE token while
only the remaining whitespace is skipped.  In `kh_lex` (lexer.c:42) the
`iswspace` branch treats the line feed exactly like a space: on any
buffer, lexing at a line feed or at a space continues at the next unit,
and on a line feed followed by `x` the first token returned is the
identifier `x` — no NEWLINE token is ever produced. -/
theorem c1_newline_skipped_as_whitespace :
    (∀ (fuel : Nat) (rest : List Nat) (errors : List String),
      kh_lex fuel (10 :: rest) errors = kh_lex fuel rest errors ∧
      kh_lex fuel (32 :: rest) errors = kh_lex fuel rest errors) ∧
    kh_lex 9 (10 :: U ("x")) [] = some (khToken_fromIdentifier (U ("x")), [], []) :=
  ⟨fun _ _ _ => ⟨rfl, rfl⟩, rfl⟩

/-- Claim C2: the spec says every lexer call terminates with the cursor
strictly advanced unless EOF is returned.  `kh_lexString`
(lexer.c:741) livelocks on a raw line feed inside a non-multiline
string literal: the loop neither consumes the offending unit nor
exits, so with the loop modelled on fuel no bound suffices — for every
fuel the model returns `none`, and so does `kh_lex` on the buffer
holding a double quote followed by a line feed. -/
theorem c2_string_newline_livelock : ∀ (fuel : Nat) (errors : List String),
    kh_lexString fuel false [34, 10] errors = none ∧
    kh_lex fuel [34, 10] errors = none := by
  intro fuel errors
  have hstr : kh_lexString fuel false [34, 10] errors = none :=
    kh_lexStringLoop_newline_none fuel errors
  refine ⟨hstr, ?_⟩
  have h2 : kh_lex fuel [34, 10] errors =
      (match kh_lexString fuel false [34, 10] errors with
        | some (string, cur1, errs) => some (khToken_fromString string, cur1, errs)
        | none => none) := rfl
  rw [h2, hstr]

/-- Claim C5: the keyword table of `kh_lexWord` (lexer.c:104) is
missing `wild`, `incase` and `in` from the fixed keyword set of the
spec — those three words lex as identifiers.  The remaining 22
keywords lex as KEYWORD tokens, the four word operators `not`, `and`,
`or`, `xor` as OPERATOR tokens, and any other word (here `foo`) as an
IDENTIFIER token. -/
theorem c5_keyword_table_gaps :
    kh_lex 9 (U ("wild")) [] = some (khToken_fromIdentifier (U ("wild")), [], []) ∧
    kh_lex 9 (U ("incase")) [] = some (khToken_fromIdentifier (U ("incase")), [], []) ∧
    kh_lex 9 (U ("in")) [] = some (khToken_fromIdentifier (U ("in")), [], []) ∧
    kh_lex 9 (U ("import")) [] = some (khToken_fromKeyword .IMPORT, [], []) ∧
    kh_lex 9 (U ("include")) [] = some (khToken_fromKeyword .INCLUDE, [], []) ∧
    kh_lex 9 (U ("as")) [] = some (khToken_fromKeyword .AS, [], []) ∧
    kh_lex 9 (U ("try")) [] = some (khToken_fromKeyword .TRY, [], []) ∧
    kh_lex 9 (U ("def")) [] = some (khToken_fromKeyword .DEF, [], []) ∧
    kh_lex 9 (U ("class")) [] = some (khToken_fromKeyword .CLASS, [], []) ∧
    kh_lex 9 (U ("struct")) [] = some (khToken_fromKeyword .STRUCT, [], []) ∧
    kh_lex 9 (U ("enum")) [] = some (khToken_fromKeyword .ENUM, [], []) ∧
    kh_lex 9 (U ("alias")) [] = some (khToken_fromKeyword .ALIAS, [], []) ∧
    kh_lex 9 (U ("ref")) [] = some (khToken_fromKeyword .REF, [], []) ∧
    kh_lex 9 (U ("public")) [] = some (khToken_fromKeyword .PUBLIC, [], []) ∧
    kh_lex 9 (U ("private")) [] = some (khToken_fromKeyword .PRIVATE, [], []) ∧
    kh_lex 9 (U ("static")) [] = some (khToken_fromKeyword .STATIC, [], []) ∧
    kh_lex 9 (U ("if")) [] = some (khToken_fromKeyword .IF, [], []) ∧
    kh_lex 9 (U ("elif")) [] = some (khToken_fromKeyword .ELIF, [], []) ∧
    kh_lex 9 (U ("else")) [] = some (khToken_fromKeyword .ELSE, [], []) ∧
    kh_lex 9 (U ("for")) [] = some (khToken_fromKeyword .FOR, [], []) ∧
    kh_lex 9 (U ("while")) [] = some (khToken_fromKeyword .WHILE, [], []) ∧
    kh_lex 9 (U ("do")) [] = some (khToken_fromKeyword .DO, [], []) ∧
    kh_lex 9 (U ("break")) [] = some (khToken_fromKeyword .BREAK, [], []) ∧
    kh_lex 9 (U ("continue")) [] = some (khToken_fromKeyword .CONTINUE, [], []) ∧
    kh_lex 9 (U ("return")) [] = some (khToken_fromKeyword .RETURN, [], []) ∧
    kh_lex 9 (U ("not")) [] = some (khToken_fromOperator .NOT, [], []) ∧
    kh_lex 9 (U ("and")) [] = some (khToken_fromOperator .AND, [], []) ∧
    kh_lex 9 (U ("or")) [] = some (khToken_fromOperator .OR, [], []) ∧
    kh_lex 9 (U ("xor")) [] = some (khToken_fromOperator .XOR, [], []) ∧
    kh_lex 9 (U ("foo")) [] = some (khToken_fromIdentifier (U ("foo")), [], []) :=
  ⟨rfl, rfl, rfl, rfl, rfl, rfl, rfl, rfl, rfl, rfl, rfl, rfl, rfl, rfl, rfl,
   rfl, rfl, rfl, rfl, rfl, rfl, rfl, rfl, rfl, rfl, rfl, rfl, rfl, rfl, rfl⟩

/-- Claim C6, counterexample: the overflow test `result < previous` of
`kh_lexInt` (lexer.c:795) misses wrap-arounds that do not decrease the
accumulator.  The decimal literal 23058430092136939525 exceeds 2^64,
yet the overflow flag stays false, no float reparse happens, and
`kh_lexNumber` returns an INT token carrying the silently wrapped
value 4611686018427387909. -/
theorem c6_overflow_check_incomplete :
    kh_lexNumber (U ("23058430092136939525")) [] =
      (khToken_fromInt 4611686018427387909, [], []) ∧
    (kh_lexInt 10 USIZE_MAX (U ("23058430092136939525"))).2.1 = false ∧
    2 ^ 64 ≤ 23058430092136939525 ∧
    (4611686018427387909 : Nat) ≠ 23058430092136939525 :=
  ⟨rfl, rfl, by norm_num, by norm_num⟩

/-- Claim C6, amended: when the mathematical value of the digit run
fits below 2^64 (and the run fits in the length bound), `kh_lexInt`
returns exactly that value with the overflow flag clear; and whenever
the flag is set on a decimal literal, `kh_lexNumber` rewinds and
produces a float-family token.  The flag however misses some
wrap-arounds (see the counterexample), so the reparse guarantee only
holds when the heuristic check fires. -/
theorem c6_int_value_exact_or_float :
    (∀ (base : Nat) (cur : List Nat) (maxLen : Nat), 1 ≤ base →
      khDigitsVal base cur 0 < 2 ^ 64 → cur.length ≤ maxLen →
      (kh_lexInt base maxLen cur).1 = khDigitsVal base cur 0 ∧
      (kh_lexInt base maxLen cur).2.1 = false) ∧
    (∀ (cur : List Nat) (errors : List String), digitOf (khPeek cur) ≤ 9 →
      (kh_lexInt (kh_lexNumberBase cur).1 USIZE_MAX (kh_lexNumberBase cur).2).2.1 = true →
      khIsFloatToken (kh_lexNumber cur errors).1 = true) := by
  constructor
  · intro base cur maxLen hb h hl
    exact kh_lexIntLoop_exact base hb cur 0 maxLen h hl
  · intro cur errors hdig hov
    have hnot : ¬ (digitOf (khPeek cur) > 9) := by omega
    rcases hbc : kh_lexNumberBase cur with ⟨base, cur1⟩
    rw [hbc] at hov
    simp only at hov
    rcases hint : kh_lexInt base USIZE_MAX cur1 with ⟨integer, had, cur2⟩
    rw [hint] at hov
    simp only at hov
    have hlen : ¬ (cur2.length = cur1.length) := by
      intro he
      have hflag := kh_lexIntLoop_noconsume_flag base cur1 USIZE_MAX 0
      rw [show kh_lexIntLoop base cur1 USIZE_MAX 0 false = kh_lexInt base USIZE_MAX cur1 from
        rfl, hint] at hflag
      simp only at hflag
      rw [hflag he] at hov
      exact Bool.false_ne_true hov
    simp only [kh_lexNumber, hbc, hint, if_neg hnot, if_neg hlen, hov, or_true, if_pos]
    rcases hfl : kh_lexFloat base cur1 with ⟨floating, cur3⟩
    simp only [hfl]
    rcases hfs : kh_lexNumberFloatSuffix floating cur3 with ⟨token, cur4⟩
    simp only [hfs]
    have := kh_lexNumberFloatSuffix_isFloat floating cur3
    rw [hfs] at this
    exact this

/-- Claim C6, witness: the amended theorem applied at the decimal
literal 123 (exact value, flag clear) and at 18446744073709551617,
whose accumulation does trip the overflow check and ends in a
float-family token. -/
theorem c6_int_value_exact_or_float_witness :
    ((kh_lexInt 10 USIZE_MAX (U ("123"))).1 = khDigitsVal 10 (U ("123")) 0 ∧
      (kh_lexInt 10 USIZE_MAX (U ("123"))).2.1 = false) ∧
    khIsFloatToken (kh_lexNumber (U ("18446744073709551617")) []).1 = true :=
  ⟨c6_int_value_exact_or_float.1 10 (U ("123")) USIZE_MAX (by norm_num) (by decide)
    (by decide),
   c6_int_value_exact_or_float.2 (U ("18446744073709551617")) [] (by decide) (by decide)⟩

/-- Claim C7: the symbol switch of `kh_lexSymbol` (lexer.c:382) maps
`]` (code 93) to the very same CURLY_BRACKET_CLOSE delimiter code as
`}` (code 125): the two closing brackets are indistinguishable to the
parser, contradicting the distinct square-bracket-close code the spec
expects. -/
theorem c7_square_bracket_close_collapsed :
    ∀ (rest : List Nat) (errors : List String),
      kh_lexSymbol (93 :: rest) errors =
        (khToken_fromDelimiter .CURLY_BRACKET_CLOSE, rest, errors) ∧
      kh_lexSymbol (125 :: rest) errors =
        (khToken_fromDelimiter .CURLY_BRACKET_CLOSE, rest, errors) :=
  fun _ _ => ⟨rfl, rfl⟩

namespace KhParser

/-! ## Parser lemmas and claim theorems -/

/-- Helper for C8: the comparison chain loop preserves the count
invariant — the operand list stays one longer than the operation list
— and never shrinks the operation list it was given. -/
theorem exparseComparisonLoop_count :
    ∀ (fuel : Nat) (ig ft : Bool) (token : khToken)
      (operations : List khAstComparisonExpressionType)
      (operands : List khAstExpression) (st : ParseState),
      operands.length = operations.length + 1 →
      (exparseComparisonLoop fuel ig ft token operations operands st).2.1.length =
        (exparseComparisonLoop fuel ig ft token operations operands st).1.length + 1 ∧
      operations.length ≤
        (exparseComparisonLoop fuel ig ft token operations operands st).1.length := by
  intro fuel
  induction fuel with
  | zero =>
    intro ig ft token operations operands st h
    exact ⟨h, Nat.le_refl _⟩
  | succ n ih =>
    intro ig ft token operations operands st h
    cases token <;> simp only [exparseComparisonLoop] <;> try exact ⟨h, Nat.le_refl _⟩
    case OPERATOR o =>
      cases hco : compOf o with
      | none =>
        simp only [hco]
        exact ⟨h, Nat.le_refl _⟩
      | some op =>
        simp only [hco]
        rcases hbo : exparseBitwiseOr n ig ft (skipSt ig st) with ⟨operand, st1⟩
        rcases hct : curTok ig st1 with ⟨token2, st2⟩
        simp only [hbo, hct]
        have hrec := ih ig ft token2 (operations ++ [op]) (operands ++ [operand]) st2
          (by simp [h])
        exact ⟨hrec.1, le_trans (by simp) hrec.2⟩

/-- Claim C3: the spec declares the power operator right-associative,
but `exparsePow` expands `RCD_BINARY` (parser.c:1299), a left fold
over the operator: for all identifier operands, `a ** b ** c` parses
to the left-nested BINARY(POW, BINARY(POW, a, b), c). -/
theorem c3_pow_left_fold (a b c : String) :
    kh_parseExpression 64 false false
        ⟨[.IDENTIFIER a, .OPERATOR .POW, .IDENTIFIER b, .OPERATOR .POW, .IDENTIFIER c],
          []⟩ =
      (.BINARY .POW (.BINARY .POW (.IDENTIFIER a) (.IDENTIFIER b)) (.IDENTIFIER c),
        ⟨[], []⟩) := rfl

/-- Claim C3, counterexample: on concrete identifiers the parse of
`a ** b ** c` is not the right-nested tree the claim requires. -/
theorem c3_pow_not_right_assoc :
    kh_parseExpression 64 false false
        ⟨[.IDENTIFIER ("a"), .OPERATOR .POW, .IDENTIFIER ("b"), .OPERATOR .POW,
          .IDENTIFIER ("c")], []⟩ ≠
      (.BINARY .POW (.IDENTIFIER ("a"))
          (.BINARY .POW (.IDENTIFIER ("b")) (.IDENTIFIER ("c"))),
        ⟨[], []⟩) := by
  intro h
  rw [show kh_parseExpression 64 false false
        ⟨[.IDENTIFIER ("a"), .OPERATOR .POW, .IDENTIFIER ("b"), .OPERATOR .POW,
          .IDENTIFIER ("c")], []⟩ =
      (.BINARY .POW (.BINARY .POW (.IDENTIFIER ("a")) (.IDENTIFIER ("b")))
          (.IDENTIFIER ("c")),
        ⟨[], []⟩) from rfl] at h
  simp at h

/-- Claim C4: `RCD_UNARY_CASE` (parser.c:1692) ignores both of its
macro arguments, so every prefix operator — `-`, `~`, `+`, `++`, `--`
— produces the same UNARY(NOT, x) node, and both postfix `x++` and
`x--` produce UNARY(POST_INCREMENT, x): distinct source operators
collapse to a single unary variant, against the claim. -/
theorem c4_unary_operators_collapse (x : String) :
    kh_parseExpression 64 false false ⟨[.OPERATOR .SUB, .IDENTIFIER x], []⟩ =
      (.UNARY .NOT (.IDENTIFIER x), ⟨[], []⟩) ∧
    kh_parseExpression 64 false false ⟨[.OPERATOR .BIT_NOT, .IDENTIFIER x], []⟩ =
      (.UNARY .NOT (.IDENTIFIER x), ⟨[], []⟩) ∧
    kh_parseExpression 64 false false ⟨[.OPERATOR .ADD, .IDENTIFIER x], []⟩ =
      (.UNARY .NOT (.IDENTIFIER x), ⟨[], []⟩) ∧
    kh_parseExpression 64 false false ⟨[.OPERATOR .INCREMENT, .IDENTIFIER x], []⟩ =
      (.UNARY .NOT (.IDENTIFIER x), ⟨[], []⟩) ∧
    kh_parseExpression 64 false false ⟨[.OPERATOR .DECREMENT, .IDENTIFIER x], []⟩ =
      (.UNARY .NOT (.IDENTIFIER x), ⟨[], []⟩) ∧
    kh_parseExpression 64 false false ⟨[.IDENTIFIER x, .OPERATOR .INCREMENT], []⟩ =
      (.UNARY .POST_INCREMENT (.IDENTIFIER x), ⟨[], []⟩) ∧
    kh_parseExpression 64 false false ⟨[.IDENTIFIER x, .OPERATOR .DECREMENT], []⟩ =
      (.UNARY .POST_INCREMENT (.IDENTIFIER x), ⟨[], []⟩) :=
  ⟨rfl, rfl, rfl, rfl, rfl, rfl, rfl⟩

/-- Claim C8: whenever `exparseComparisonOperators` (parser.c:1507)
assembles a COMPARISON node — the only place such nodes are built —
the operand list is exactly one longer than the operation list and the
operation list is nonempty; and parsing `a < b < c` yields a single
COMPARISON node with operations [LESS, LESS] and operands [a, b, c]. -/
theorem c8_comparison_counts :
    (∀ (n : Nat) (ig : Bool) (st : ParseState) (expression : khAstExpression)
      (st1 : ParseState) (o : khOperatorToken) (op : khAstComparisonExpressionType),
      exparseBitwiseOr (n + 1) ig false (curTok ig st).2 = (expression, st1) →
      (curTok ig st1).1 = .OPERATOR o →
      compOf o = some op →
      khComparisonCountOK (exparseComparisonOperators (n + 2) ig false st).1) ∧
    (∀ a b c : String,
      kh_parseExpression 64 false false
          ⟨[.IDENTIFIER a, .OPERATOR .LESS, .IDENTIFIER b, .OPERATOR .LESS,
            .IDENTIFIER c], []⟩ =
        (.COMPARISON [.LESS, .LESS] [.IDENTIFIER a, .IDENTIFIER b, .IDENTIFIER c],
          ⟨[], []⟩)) := by
  constructor
  · intro n ig st expression st1 o op hexp htok hop
    rcases hc0 : curTok ig st with ⟨t0, stA⟩
    rw [hc0] at hexp
    rcases hc1 : curTok ig st1 with ⟨t1, stB⟩
    rw [hc1] at htok
    subst htok
    have hcomp : isCompTok (khToken.OPERATOR o) = true := by
      simp [isCompTok, hop]
    simp only [exparseComparisonOperators, hc0, hexp, hc1, Bool.false_eq_true, if_false,
      hcomp, if_true]
    simp only [exparseComparisonLoop, hop]
    rcases hbo : exparseBitwiseOr n ig false (skipSt ig stB) with ⟨operand, st2⟩
    rcases hct : curTok ig st2 with ⟨token2, st3⟩
    simp only [hbo, hct, List.nil_append, List.singleton_append]
    rcases hloop : exparseComparisonLoop n ig false token2 [op] [expression, operand] st3
      with ⟨ops, opnds, st4⟩
    have hrec := exparseComparisonLoop_count n ig false token2 [op] [expression, operand]
      st3 (by simp)
    rw [hloop] at hrec
    simp only [hloop]
    simp only [khComparisonCountOK]
    simp only at hrec
    exact ⟨hrec.1, hrec.2⟩
  · intro a b c
    rfl

/-- Claim C8, witness: the invariant part applied at the concrete
token stream `a < b`, and the chain part at concrete identifiers. -/
theorem c8_comparison_counts_witness :
    khComparisonCountOK (exparseComparisonOperators 40 false false
      ⟨[.IDENTIFIER ("a"), .OPERATOR .LESS, .IDENTIFIER ("b")], []⟩).1 ∧
    kh_parseExpression 64 false false
        ⟨[.IDENTIFIER ("a"), .OPERATOR .LESS, .IDENTIFIER ("b"), .OPERATOR .LESS,
          .IDENTIFIER ("c")], []⟩ =
      (.COMPARISON [.LESS, .LESS]
          [.IDENTIFIER ("a"), .IDENTIFIER ("b"), .IDENTIFIER ("c")],
        ⟨[], []⟩) :=
  ⟨c8_comparison_counts.1 38 false
      ⟨[.IDENTIFIER ("a"), .OPERATOR .LESS, .IDENTIFIER ("b")], []⟩
      (.IDENTIFIER ("a")) ⟨[.OPERATOR .LESS, .IDENTIFIER ("b")], []⟩ .LESS .LESS
      rfl rfl rfl,
   c8_comparison_counts.2 ("a") ("b") ("c")⟩

/-- Claim C9: `(x)` collapses to `x` and `(x, y)` builds
TUPLE [x, y], both without diagnostics; but the trailing-comma form
`(x,)` does not build TUPLE [x]: after the comma `exparseList`
(parser.c:2485) parses another element out of the closing parenthesis,
yielding TUPLE [x, INVALID] together with two diagnostics. -/
theorem c9_paren_grouping_and_tuples (x y : String) :
    kh_parseExpression 64 false false
        ⟨[.DELIMITER .PARENTHESIS_OPEN, .IDENTIFIER x, .DELIMITER .PARENTHESIS_CLOSE],
          []⟩ =
      (.IDENTIFIER x, ⟨[], []⟩) ∧
    kh_parseExpression 64 false false
        ⟨[.DELIMITER .PARENTHESIS_OPEN, .IDENTIFIER x, .DELIMITER .COMMA, .IDENTIFIER y,
          .DELIMITER .PARENTHESIS_CLOSE], []⟩ =
      (.TUPLE [.IDENTIFIER x, .IDENTIFIER y], ⟨[], []⟩) ∧
    kh_parseExpression 64 false false
        ⟨[.DELIMITER .PARENTHESIS_OPEN, .IDENTIFIER x, .DELIMITER .COMMA,
          .DELIMITER .PARENTHESIS_CLOSE], []⟩ =
      (.TUPLE [.IDENTIFIER x, .INVALID],
        ⟨[], ["unexpected token in an expression",
              "expecting a comma with another element or a closing delimiter"]⟩) :=
  ⟨rfl, rfl, rfl⟩

/-- Claim C9, counterexample: parsing `(x,)` leaves a nonempty
diagnostic list, refuting the no-diagnostics part of the claim on
that input. -/
theorem c9_trailing_comma_diagnostic :
    (kh_parseExpression 64 false false
        ⟨[.DELIMITER .PARENTHESIS_OPEN, .IDENTIFIER ("x"), .DELIMITER .COMMA,
          .DELIMITER .PARENTHESIS_CLOSE], []⟩).2.errs ≠ [] := by
  rw [show (kh_parseExpression 64 false false
        ⟨[.DELIMITER .PARENTHESIS_OPEN, .IDENTIFIER ("x"), .DELIMITER .COMMA,
          .DELIMITER .PARENTHESIS_CLOSE], []⟩).2.errs =
      ["unexpected token in an expression",
       "expecting a comma with another element or a closing delimiter"] from rfl]
  simp

/-- Claim C10: `sparseReturn` (parser.c:1245) reads the token after
the `return` keyword with `currentToken(cursor, true)`, which skips
NEWLINE tokens, so the NEWLINE disjunct of the early exit is dead
code: `return` directly before a newline does not take the bare-return
path — with `return`, newline, `1`, `;` the parser returns the value
list [1] instead of the empty list the claim requires.  The early exit
does fire on a semicolon, on end of input, and even on a newline whose
next token is a semicolon; a closing curly bracket after `return` is
rejected with a diagnostic. -/
theorem c10_return_newline_dead_branch :
    sparseReturn 64 ⟨[.KEYWORD .RETURN, .DELIMITER .SEMICOLON], []⟩ = ([], ⟨[], []⟩) ∧
    sparseReturn 64 ⟨[.KEYWORD .RETURN], []⟩ = ([], ⟨[], []⟩) ∧
    sparseReturn 64 ⟨[.KEYWORD .RETURN, .NEWLINE, .DELIMITER .SEMICOLON], []⟩ =
      ([], ⟨[], []⟩) ∧
    sparseReturn 64 ⟨[.KEYWORD .RETURN, .NEWLINE, .INTEGER 1, .DELIMITER .SEMICOLON],
        []⟩ =
      ([.INTEGER 1], ⟨[], []⟩) ∧
    sparseReturn 64 ⟨[.KEYWORD .RETURN, .DELIMITER .CURLY_BRACKET_CLOSE], []⟩ =
      ([.INVALID], ⟨[], ["unexpected token in an expression"]⟩) :=
  ⟨rfl, rfl, rfl, rfl, rfl⟩

end KhParser
